import Mathlib

/-!
Shallow embedding of the B2B-RFP analysis pipeline
(`src/app/agents/{graph,parser_agent,analyzer_agent,matcher_agent,scorer_agent,response_agent}.py`)
together with theorems settling the frozen claims about it.

Conventions of the embedding:
* Python floats occurring in the data (voltage ratings such as 1.1 kV,
  cross-sections, prices, scores) are modelled as rationals; the comparisons the
  code performs on them are order/equality comparisons that floats and rationals
  agree on for such values.
* A nullable / possibly-missing dictionary entry is an `Option`.  Python's
  `specs.get(k)` followed by a truth test treats a missing key, `None`, `0` and
  the empty string alike; the helpers `pyNum` / `pyStr` encode exactly that
  truthiness.
* External collaborators (the Gemini LLM calls and the SQL catalog) are oracle
  parameters: each call site receives an `Except String _` describing either the
  value the collaborator produced (already well-typed, standing for the parsed
  JSON) or the exception it raised.  The placement of those parameters mirrors
  the source exactly: handle/session acquisition (`get_*_llm()`,
  `get_db_session()`) is a separate oracle from the invocation because the
  source performs it outside the corresponding `try` block.
* A Python function that can raise returns `Except String _`; an uncaught
  exception is `.error`.
-/

set_option maxHeartbeats 1000000

namespace B2B

/-- Python truthiness of an optional numeric value: `d.get(k)` used as a
condition is false when the key is missing, `None`, or the value is 0. -/
def pyNum (o : Option ℚ) : Option ℚ :=
  match o with
  | some v => if v = 0 then none else some v
  | none => none

/-- Python truthiness of an optional string value: missing, `None` and the
empty string are all falsy. -/
def pyStr (o : Option String) : Option String :=
  match o with
  | some s => if s = "" then none else some s
  | none => none

/-- Python's substring test `needle in hay` on character lists. -/
def charsContain (hay needle : List Char) : Bool :=
  hay.tails.any (fun t => needle.isPrefixOf t)

/-- Case-insensitive containment, `needle.lower() in hay.lower()`; also the
semantics of SQL `ilike '%needle%'` on a non-NULL column.  Lowercasing maps
each character with `Char.toLower`, which agrees with Python's `str.lower` on
the ASCII data this system handles. -/
def lowerContains (hay needle : String) : Bool :=
  charsContain (hay.toList.map Char.toLower) (needle.toList.map Char.toLower)

/-! ## Data model (`state.py`, `db/models.py`) -/

/-- The specification fields of a requirement (`Requirement.specifications`).
Every field may be missing from the dict.  The fields the matcher reads are
only ever consumed through `specs.get(k)` truthiness, which does not
distinguish a missing key from a present JSON `null` (the analyzer prompt
says "Use null for specifications not mentioned"), so a single `Option`
models both for them.  `quantity` and `quantity_unit`, however, are read by
the response stage with a plain `specs.get(k, default)`, whose default fires
only when the key is MISSING — a present `null` comes through as `None` — so
for these two the outer `Option` is key presence and the inner `Option` is
value-or-null. -/
structure Specs where
  voltage_kv : Option ℚ := none
  conductor : Option String := none
  cores : Option String := none
  cross_section_mm2 : Option ℚ := none
  insulation : Option String := none
  armour : Option String := none
  quantity : Option (Option ℚ) := none
  quantity_unit : Option (Option String) := none
  deriving DecidableEq, Repr

/-- An extracted requirement (`state.Requirement`) after the analyzer's
normalization (all four scalar fields populated). -/
structure Requirement where
  id : String
  description : String
  category : String
  priority : String
  specifications : Specs
  deriving DecidableEq, Repr

/-- A catalog row (`db.models.Component`); specification columns are nullable. -/
structure Component where
  id : ℤ
  sku : String
  name : String
  category : String
  voltage_kv : Option ℚ := none
  conductor : Option String := none
  cores : Option String := none
  cross_section_mm2 : Option ℚ := none
  insulation : Option String := none
  armour : Option String := none
  standard : Option String := none
  price_per_meter : Option ℚ := none
  in_stock : Bool := true
  lead_time_days : Option ℕ := none
  deriving DecidableEq, Repr

/-- The candidate dictionary produced by `component_to_dict`. -/
structure Candidate where
  component_id : ℤ
  sku : String
  name : String
  category : String
  voltage_kv : Option ℚ
  conductor : Option String
  cores : Option String
  cross_section_mm2 : Option ℚ
  insulation : Option String
  armour : Option String
  standard : Option String
  price_per_meter : ℚ
  in_stock : Bool
  lead_time_days : ℕ
  deriving DecidableEq, Repr

/-- Model of `component_to_dict` (matcher_agent.py): projects a catalog row to the dict
the scoring code consumes; `price_per_meter or 0` and `lead_time_days or 0`
default the nullable commercial columns. -/
def component_to_dict (c : Component) : Candidate :=
  { component_id := c.id
    sku := c.sku
    name := c.name
    category := c.category
    voltage_kv := c.voltage_kv
    conductor := c.conductor
    cores := c.cores
    cross_section_mm2 := c.cross_section_mm2
    insulation := c.insulation
    armour := c.armour
    standard := c.standard
    price_per_meter := (c.price_per_meter).getD 0
    in_stock := c.in_stock
    lead_time_days := (c.lead_time_days).getD 0 }

/-! ## Candidate retrieval (`query_components_for_requirement`) -/

/-- The conjunctive filter list built at the top of
`query_components_for_requirement`: one predicate per truthy spec field.
SQL semantics on nullable columns: a comparison with a NULL column is not
satisfied, so each predicate requires the column to be present. -/
def mkFilters (specs : Specs) : List (Component → Bool) :=
  (match pyNum specs.voltage_kv with
   | some v => [fun c => c.voltage_kv == some v]
   | none => []) ++
  (match pyStr specs.conductor with
   | some s => [fun c => (c.conductor.map (fun x => lowerContains x s)).getD false]
   | none => []) ++
  (match pyStr specs.cores with
   | some s => [fun c => c.cores == some s]
   | none => []) ++
  (match pyNum specs.cross_section_mm2 with
   | some v => [fun c => c.cross_section_mm2 == some v]
   | none => []) ++
  (match pyStr specs.insulation with
   | some s => [fun c => (c.insulation.map (fun x => lowerContains x s)).getD false]
   | none => []) ++
  (match pyStr specs.armour with
   | some s => [fun c => (c.armour.map (fun x => lowerContains x s)).getD false]
   | none => [])

/-- The relaxed priority filter list (voltage rating, then cross-section). -/
def mkPriorityFilters (specs : Specs) : List (Component → Bool) :=
  (match pyNum specs.voltage_kv with
   | some v => [fun c => c.voltage_kv == some v]
   | none => []) ++
  (match pyNum specs.cross_section_mm2 with
   | some v => [fun c => c.cross_section_mm2 == some v]
   | none => [])

/-- Model of `session.query(Component).filter(and_(*fs)).limit(n).all()` over a catalog
modelled as the list of rows in the order the database returns them. -/
def runQuery (catalog : List Component) (fs : List (Component → Bool)) (n : ℕ) :
    List Component :=
  (catalog.filter (fun c => fs.all (fun f => f c))).take n

/-- The coarse category the Tier-3 fallback derives from a voltage rating. -/
def fallbackCategory (v : ℚ) : String :=
  if v ≤ 1.1 then "LT Cable" else if v ≤ 33 then "HT Cable" else "EHV Cable"

/-- Model of `query_components_for_requirement` (matcher_agent.py): tiered retrieval over
the catalog, returning candidate dictionaries. -/
def query_components_for_requirement (catalog : List Component) (specs : Specs) :
    List Candidate :=
  let filters := mkFilters specs
  let afterTiers :=
    if filters.isEmpty then none
    else
      let results := runQuery catalog filters 10
      if results.isEmpty then
        let priorityFilters := mkPriorityFilters specs
        if priorityFilters.isEmpty then none
        else
          let results2 := runQuery catalog priorityFilters 10
          if results2.isEmpty then none else some (results2.map component_to_dict)
      else some (results.map component_to_dict)
  match afterTiers with
  | some r => r
  | none =>
    match pyNum specs.voltage_kv with
    | some v =>
      (runQuery catalog [fun c => c.category == fallbackCategory v] 5).map
        component_to_dict
    | none => []

/-! ## Deterministic fallback scoring (`simple_score_matches`) -/

/-- One entry of the fallback scorer's `scored` list. -/
structure ScoredMatch where
  component_id : ℤ
  score : ℕ
  matched_specs : List (String × Bool)
  notes : String
  deriving DecidableEq, Repr

/-- One numeric field of the fallback scoring loop: awards `pts` when both
sides carry a truthy value and the comparison holds; records `true`/`false` in
the match map only when both sides are present, nothing otherwise. -/
def numField (pts : ℕ) (ok : ℚ → ℚ → Bool) (rv cv : Option ℚ) : ℕ × Option Bool :=
  match pyNum rv, pyNum cv with
  | some r, some c => if ok r c then (pts, some true) else (0, some false)
  | _, _ => (0, none)

/-- One string field of the fallback scoring loop, same skipping rule. -/
def strField (pts : ℕ) (ok : String → String → Bool) (rs cs : Option String) :
    ℕ × Option Bool :=
  match pyStr rs, pyStr cs with
  | some r, some c => if ok r c then (pts, some true) else (0, some false)
  | _, _ => (0, none)

/-- The match-map entry contributed by one field (empty when skipped). -/
def entryList (k : String) (b : Option Bool) : List (String × Bool) :=
  match b with
  | some v => [(k, v)]
  | none => []

/-- The body of the `for comp in candidates` loop of `simple_score_matches`:
sequentially accumulates the six field contributions and builds the
`matched_specs` dict in insertion order. -/
def scoreCandidate (specs : Specs) (comp : Candidate) : ScoredMatch :=
  let v := numField 25 (fun r c => r ≤ c) specs.voltage_kv comp.voltage_kv
  let cs := numField 25 (fun r c => c == r) specs.cross_section_mm2 comp.cross_section_mm2
  let co := strField 15 (fun r c => lowerContains c r) specs.conductor comp.conductor
  let ins := strField 15 (fun r c => lowerContains c r) specs.insulation comp.insulation
  let cr := strField 10 (fun r c => r == c) specs.cores comp.cores
  let ar := strField 10 (fun r c => lowerContains c r) specs.armour comp.armour
  { component_id := comp.component_id
    score := v.1 + cs.1 + co.1 + ins.1 + cr.1 + ar.1
    matched_specs :=
      entryList "voltage_kv" v.2 ++ entryList "cross_section_mm2" cs.2 ++
      entryList "conductor" co.2 ++ entryList "insulation" ins.2 ++
      entryList "cores" cr.2 ++ entryList "armour" ar.2
    notes := "" }

/-- Stable descending insertion: the new element goes before the first existing
element whose score is not larger.  Together with `sortDesc` this is the
behaviour of Python's stable `list.sort(key=..., reverse=True)`. -/
def insertDesc (x : ScoredMatch) : List ScoredMatch → List ScoredMatch
  | [] => [x]
  | y :: ys => if y.score ≤ x.score then x :: y :: ys else y :: insertDesc x ys

/-- Stable descending sort by score (model of `scored.sort(key=score,
reverse=True)`). -/
def sortDesc : List ScoredMatch → List ScoredMatch
  | [] => []
  | x :: xs => insertDesc x (sortDesc xs)

/-- Result dictionary of `simple_score_matches` (and, shape-wise, of the LLM
scoring path before numeric laundering). -/
structure SimpleResult where
  scored_matches : List ScoredMatch
  best_match_id : Option ℤ
  coverage_score : ℕ
  deriving DecidableEq, Repr

/-- Model of `simple_score_matches` (matcher_agent.py): score every candidate, stable
descending sort, keep the top 5, and read the best id/score off the sorted
list's head. -/
def simple_score_matches (requirementSpecs : Specs) (candidates : List Candidate) :
    SimpleResult :=
  let scored := sortDesc (candidates.map (scoreCandidate requirementSpecs))
  { scored_matches := scored.take 5
    best_match_id := (scored.head?).map (fun s => s.component_id)
    coverage_score := ((scored.head?).map (fun s => s.score)).getD 0 }

/-! ## The matching stage (`matcher_agent`) -/

/-- One entry of the `scored_matches` array of the scoring result.  On the LLM
path the model may return an arbitrary numeric score, hence `ℚ`. -/
structure LLMScored where
  component_id : ℤ
  score : ℚ
  matched_specs : List (String × Bool)
  notes : String
  deriving DecidableEq, Repr

/-- The parsed scoring dictionary (`scored_matches`, `best_match_id`,
`coverage_score`) as consumed by `matcher_agent`; `.get` defaults for missing
keys are folded into the parse oracle. -/
structure MatchResult where
  scored_matches : List LLMScored
  best_match_id : Option ℤ
  coverage_score : ℚ
  deriving DecidableEq, Repr

/-- Injection of the deterministic fallback result into the common result
shape (Python needs no conversion; the fallback's ints are already numbers). -/
def SimpleResult.toMatchResult (r : SimpleResult) : MatchResult :=
  { scored_matches := r.scored_matches.map (fun s =>
      { component_id := s.component_id
        score := (s.score : ℚ)
        matched_specs := s.matched_specs
        notes := s.notes })
    best_match_id := r.best_match_id
    coverage_score := (r.coverage_score : ℚ) }

/-- Model of `score_matches_with_llm` (matcher_agent.py).  With no candidates it returns
the empty result before touching the LLM.  Otherwise `get_analyzer_llm()` runs
OUTSIDE the `try` block, so an acquisition failure is raised to the caller;
a failure of the invocation/JSON-parse (the `try` body) falls back to
`simple_score_matches`. -/
def score_matches_with_llm (llmAcq : Except String Unit)
    (llmCall : Except String MatchResult) (requirement : Requirement)
    (candidates : List Candidate) : Except String MatchResult :=
  if candidates.isEmpty then
    .ok { scored_matches := [], best_match_id := none, coverage_score := 0 }
  else
    match llmAcq with
    | .error e => .error e
    | .ok _ =>
      match llmCall with
      | .ok parsed => .ok parsed
      | .error _ =>
        .ok (simple_score_matches requirement.specifications candidates).toMatchResult

/-- A `ComponentMatch` of `state.py` as built by `matcher_agent`. -/
structure ComponentMatch where
  component_id : ℤ
  sku : String
  name : String
  category : String
  score : ℚ
  matched_specs : List (String × Bool)
  price_per_meter : ℚ
  in_stock : Bool
  lead_time_days : ℕ
  deriving DecidableEq, Repr

/-- A `RequirementMatch` of `state.py`. -/
structure RequirementMatch where
  requirement_id : String
  requirement_description : String
  «matches» : List ComponentMatch
  best_match : Option ComponentMatch
  coverage_score : ℚ
  deriving DecidableEq, Repr

/-- The match-construction loop of `matcher_agent` (lines 313-331): each scored
entry is looked up among the retrieved candidates by `component_id`; an entry
with an unknown id is dropped silently. -/
def buildMatches (candidates : List Candidate) (scored : List LLMScored) :
    List ComponentMatch :=
  scored.filterMap (fun s =>
    (candidates.find? (fun c => c.component_id == s.component_id)).map (fun c =>
      { component_id := c.component_id
        sku := c.sku
        name := c.name
        category := c.category
        score := s.score
        matched_specs := s.matched_specs
        price_per_meter := c.price_per_meter
        in_stock := c.in_stock
        lead_time_days := c.lead_time_days }))

/-- The `RequirementMatch` `matcher_agent` appends when candidates were found:
`best_match = matches[0] if matches else None`, coverage taken from the scoring
result. -/
def buildRequirementMatch (req : Requirement) (candidates : List Candidate)
    (result : MatchResult) : RequirementMatch :=
  let ms := buildMatches candidates result.scored_matches
  { requirement_id := req.id
    requirement_description := req.description
    «matches» := ms
    best_match := ms.head?
    coverage_score := result.coverage_score }

/-- The `RequirementMatch` appended when retrieval produced no candidates. -/
def emptyRequirementMatch (req : Requirement) : RequirementMatch :=
  { requirement_id := req.id
    requirement_description := req.description
    «matches» := []
    best_match := none
    coverage_score := 0 }

/-- Per-requirement oracle outcomes inside the matcher's loop: the catalog
query (which may raise) and the two phases of `score_matches_with_llm`. -/
structure ReqOracle where
  queryRes : Except String (List Candidate)
  llmAcq : Except String Unit
  llmCall : Except String MatchResult

/-- The partial update a stage returns (matcher's fields). -/
structure MatcherUpdate where
  requirement_matches : List RequirementMatch
  current_agent : String
  errors : List String
  deriving DecidableEq, Repr

/-- The `for req in requirements` loop of `matcher_agent` under its `try`:
processes requirements in order; the first exception (catalog query raising,
or `get_analyzer_llm` raising inside `score_matches_with_llm`) aborts the loop,
keeping the matches accumulated so far and appending one error entry. -/
def matcherLoop (oracle : ℕ → ReqOracle) : ℕ → List Requirement →
    List RequirementMatch × List String
  | _, [] => ([], [])
  | i, req :: rest =>
    match (oracle i).queryRes with
    | .error e => ([], ["Matcher Agent: " ++ e])
    | .ok candidates =>
      if candidates.isEmpty then
        let (ms, es) := matcherLoop oracle (i + 1) rest
        (emptyRequirementMatch req :: ms, es)
      else
        match score_matches_with_llm (oracle i).llmAcq (oracle i).llmCall req candidates with
        | .error e => ([], ["Matcher Agent: " ++ e])
        | .ok result =>
          let (ms, es) := matcherLoop oracle (i + 1) rest
          (buildRequirementMatch req candidates result :: ms, es)

/-- Model of `matcher_agent` (matcher_agent.py).  With no requirements it returns before
acquiring a session.  `get_db_session()` runs OUTSIDE the `try` block: its
failure is raised past the stage boundary.  Everything inside the `try` is
converted to an error entry plus the partial match list. -/
def matcher_agent (sessionAcq : Except String Unit) (oracle : ℕ → ReqOracle)
    (requirements : List Requirement) : Except String MatcherUpdate :=
  if requirements.isEmpty then
    .ok { requirement_matches := []
          current_agent := "matcher"
          errors := ["Matcher Agent: No requirements to match"] }
  else
    match sessionAcq with
    | .error e => .error e
    | .ok _ =>
      let (ms, es) := matcherLoop oracle 0 requirements
      .ok { requirement_matches := ms, current_agent := "matcher", errors := es }

/-! ## The scoring stage (`scorer_agent`) -/

/-- One entry of `scoring_breakdown`. -/
structure BreakdownEntry where
  score : ℚ
  maxPoints : ℚ
  weighted_score : ℚ
  notes : String
  deriving DecidableEq, Repr

/-- The `scoring_breakdown` value is a JSON object: key → entry, insertion-ordered. -/
abbrev Breakdown : Type := List (String × BreakdownEntry)

/-- The parsed LLM scorer response; `.get` defaults applied by `scorer_agent`
are modelled by `Option` + `getD` at the use site. -/
structure ParsedScore where
  overall_score : Option ℚ
  scoring_breakdown : Option Breakdown
  recommendations : Option (List String)
  deriving DecidableEq, Repr

/-- The partial update the scorer returns. -/
structure ScorerUpdate where
  overall_score : ℚ
  scoring_breakdown : Breakdown
  recommendations : List String
  current_agent : String
  errors : List String
  deriving DecidableEq, Repr

/-- Model of `scorer_agent` (scorer_agent.py).  Empty `requirement_matches` short-
circuits before the LLM handle is acquired; otherwise `get_analyzer_llm()` at
line 128 is OUTSIDE the `try` and its failure is raised; the `try` body's
failure produces the deterministic fallback breakdown. -/
def scorer_agent (llmAcq : Except String Unit) (llmCall : Except String ParsedScore)
    (requirement_matches : List RequirementMatch) : Except String ScorerUpdate :=
  if requirement_matches.isEmpty then
    .ok { overall_score := 0
          scoring_breakdown := []
          recommendations := ["No requirements were matched. Unable to evaluate."]
          current_agent := "scorer"
          errors := ["Scorer Agent: No matches to score"] }
  else
    let total_reqs : ℕ := requirement_matches.length
    let matched_reqs : ℕ :=
      (requirement_matches.filter (fun rm => rm.best_match.isSome)).length
    let avg_coverage : ℚ :=
      if 0 < total_reqs then
        (requirement_matches.map (fun rm => rm.coverage_score)).sum / (total_reqs : ℚ)
      else 0
    let in_stock_count : ℕ :=
      (requirement_matches.filter (fun rm =>
        (rm.best_match.map (fun m => m.in_stock)).getD false)).length
    match llmAcq with
    | .error e => .error e
    | .ok _ =>
      match llmCall with
      | .ok parsed =>
        .ok { overall_score := (parsed.overall_score).getD avg_coverage
              scoring_breakdown := (parsed.scoring_breakdown).getD []
              recommendations := (parsed.recommendations).getD []
              current_agent := "scorer"
              errors := [] }
      | .error e =>
        .ok { overall_score := avg_coverage
              scoring_breakdown :=
                [("technical_coverage",
                  { score := avg_coverage
                    maxPoints := 40
                    weighted_score := avg_coverage * 0.4
                    notes := "Matched " ++ toString matched_reqs ++ "/" ++
                      toString total_reqs ++ " requirements" }),
                 ("availability",
                  { score := if 0 < matched_reqs then
                      (in_stock_count : ℚ) / (matched_reqs : ℚ) * 100 else 0
                    maxPoints := 20
                    weighted_score := if 0 < matched_reqs then
                      (in_stock_count : ℚ) / (matched_reqs : ℚ) * 20 else 0
                    notes := toString in_stock_count ++ " items in stock" })]
              recommendations :=
                ["Match rate: " ++ toString matched_reqs ++ "/" ++
                   toString total_reqs ++ " requirements",
                 "Average coverage (percent, one decimal)"]
              current_agent := "scorer"
              errors := ["Scorer Agent: LLM scoring failed, using fallback: " ++ e] }

/-! ## The parsing stage (`parser_agent`) -/

/-- A parsed RFP section (`state.RFPSection`). -/
structure Section where
  name : String
  content : String
  page_number : Option ℤ
  deriving DecidableEq, Repr

/-- The partial update the parser returns. -/
structure ParserUpdate where
  sections : List Section
  current_agent : String
  errors : List String
  deriving DecidableEq, Repr

/-- Model of `parser_agent` (parser_agent.py).  `get_parser_llm()` at line 60 is OUTSIDE
the `try` block, so its failure (e.g. `GOOGLE_API_KEY` unset) is raised past
the stage boundary; any failure of the `try` body (invocation, fence
stripping, JSON decoding) becomes a stage-tagged error entry plus an empty
section list. -/
def parser_agent (llmAcq : Except String Unit)
    (llmCall : Except String (List Section)) : Except String ParserUpdate :=
  match llmAcq with
  | .error e => .error e
  | .ok _ =>
    match llmCall with
    | .ok sections =>
      .ok { sections := sections, current_agent := "parser", errors := [] }
    | .error e =>
      .ok { sections := [], current_agent := "parser"
            errors := ["Parser Agent: " ++ e] }

/-! ## The analysis stage (`analyzer_agent`) -/

/-- A raw requirement as found in the parsed LLM response, before the
analyzer's normalization (each key may be missing). -/
structure RawRequirement where
  id : Option String
  description : Option String
  category : Option String
  priority : Option String
  specifications : Option Specs
  deriving DecidableEq, Repr

/-- Parsed analyzer LLM response. -/
structure ParsedAnalysis where
  requirements : List RawRequirement
  project_summary : Option String
  budget_info : Option String
  timeline_info : Option String
  deriving DecidableEq, Repr

/-- The partial update the analyzer returns. -/
structure AnalyzerUpdate where
  requirements : List Requirement
  project_summary : String
  budget_info : Option String
  timeline_info : Option String
  current_agent : String
  errors : List String
  deriving DecidableEq, Repr

/-- Zero-padded requirement counter, Python's `f"REQ-{i+1:03d}"`. -/
def pad3 (n : ℕ) : String :=
  if n < 10 then "00" ++ toString n
  else if n < 100 then "0" ++ toString n
  else toString n

/-- The analyzer's normalization loop: synthesize a positional id and default
category/priority when missing. -/
def normalizeRequirement (i : ℕ) (raw : RawRequirement) : Requirement :=
  { id := (raw.id).getD ("REQ-" ++ pad3 (i + 1))
    description := (raw.description).getD ""
    category := (raw.category).getD "technical"
    priority := (raw.priority).getD "mandatory"
    specifications := (raw.specifications).getD {} }

/-- The section text the analyzer feeds to the LLM
(`"\n\n".join("=== name ===\ncontent")`). -/
def sectionsText (sections : List Section) : String :=
  String.intercalate "\n\n"
    (sections.map (fun s => "=== " ++ s.name ++ " ===\n" ++ s.content))

/-- Model of `analyzer_agent` (analyzer_agent.py).  `get_analyzer_llm()` at line 71 is
OUTSIDE the `try` and even precedes the empty-sections check, so acquisition
failure raises; an empty joined text short-circuits with an error entry; a
`try`-body failure yields the empty requirement set plus an error entry. -/
def analyzer_agent (llmAcq : Except String Unit)
    (llmCall : Except String ParsedAnalysis) (sections : List Section) :
    Except String AnalyzerUpdate :=
  match llmAcq with
  | .error e => .error e
  | .ok _ =>
    if sectionsText sections = "" then
      .ok { requirements := [], project_summary := "", budget_info := none
            timeline_info := none, current_agent := "analyzer"
            errors := ["Analyzer Agent: No sections to analyze"] }
    else
      match llmCall with
      | .ok parsed =>
        .ok { requirements :=
                (parsed.requirements).enum.map (fun p => normalizeRequirement p.1 p.2)
              project_summary := (parsed.project_summary).getD ""
              budget_info := parsed.budget_info
              timeline_info := parsed.timeline_info
              current_agent := "analyzer"
              errors := [] }
      | .error e =>
        .ok { requirements := [], project_summary := "", budget_info := none
              timeline_info := none, current_agent := "analyzer"
              errors := ["Analyzer Agent: " ++ e] }

/-! ## The response stage (`response_agent`) -/

/-- Parsed response-builder LLM output. -/
structure ParsedResponse where
  proposal_summary : Option String
  technical_response : Option String
  commercial_response : Option String
  deriving DecidableEq, Repr

/-- The partial update the response builder returns. -/
structure ResponseUpdate where
  proposal_summary : String
  technical_response : String
  commercial_response : String
  current_agent : String
  errors : List String
  deriving DecidableEq, Repr

/-- One line item of the response context (response_agent.py lines 69-91).
`unit` is `none` when `quantity_unit` was present but `null` (Python keeps
the `None` in the dict). -/
structure LineItem where
  requirement_id : String
  description : String
  product : String
  sku : String
  quantity : ℚ
  unit : Option String
  unit_price : ℚ
  line_total : ℚ
  in_stock : Bool
  lead_time : ℕ
  deriving DecidableEq, Repr

/-- The line-item loop of `response_agent` (lines 66-91), which runs BEFORE
the stage's `try` block: one item per requirement match that has a best
match.  `specs.get("quantity", 1000)` is a plain dictionary default (no
truthiness): a missing key yields 1000, but a key present with JSON `null`
yields Python `None`, and `quantity * unit_price` at line 77 then raises
`TypeError` — uncaught, since the `try` only starts at line 112. -/
def buildLineItems (requirements : List Requirement) :
    List RequirementMatch → Except String (List LineItem)
  | [] => .ok []
  | rm :: rest =>
    match rm.best_match with
    | none => buildLineItems requirements rest
    | some bm =>
      let specs :=
        ((requirements.find? (fun r => r.id == rm.requirement_id)).map
          (fun r => r.specifications)).getD {}
      match (match specs.quantity with
             | none => some (1000 : ℚ)
             | some v => v) with
      | none =>
        .error "TypeError: unsupported operand type(s) for *: 'NoneType' and 'float'"
      | some quantity =>
        match buildLineItems requirements rest with
        | .error e => .error e
        | .ok items =>
          .ok ({ requirement_id := rm.requirement_id
                 description := rm.requirement_description
                 product := bm.name
                 sku := bm.sku
                 quantity := quantity
                 unit := (match specs.quantity_unit with
                          | none => some "meters"
                          | some u => u)
                 unit_price := bm.price_per_meter
                 line_total := quantity * bm.price_per_meter
                 in_stock := bm.in_stock
                 lead_time := bm.lead_time_days } :: items)

/-- Model of `response_agent` (response_agent.py).  The whole line-item loop
(lines 66-91) runs first, outside the `try`: a `TypeError` there (null
quantity) is raised past the stage boundary.  `get_response_llm()` at line
105 is also OUTSIDE the `try`; a `try`-body failure produces the
deterministic template response plus an error entry.  The template prose
itself is out of the core's scope (spec section 1), so its text is
abbreviated here; only its totality and the control flow around it matter to
the claims. -/
def response_agent (llmAcq : Except String Unit)
    (llmCall : Except String ParsedResponse) (requirements : List Requirement)
    (requirement_matches : List RequirementMatch) : Except String ResponseUpdate :=
  match buildLineItems requirements requirement_matches with
  | .error e => .error e
  | .ok line_items =>
    let total_value := (line_items.map (fun li => li.line_total)).sum
    match llmAcq with
    | .error e => .error e
    | .ok _ =>
      match llmCall with
      | .ok parsed =>
        .ok { proposal_summary := (parsed.proposal_summary).getD ""
              technical_response := (parsed.technical_response).getD ""
              commercial_response := (parsed.commercial_response).getD ""
              current_agent := "response"
              errors := [] }
      | .error e =>
        .ok { proposal_summary :=
                "## Proposal Summary (" ++ toString line_items.length ++ " items)"
              technical_response := "## Technical Response"
              commercial_response :=
                "## Commercial Response, total " ++ toString total_value.num
              current_agent := "response"
              errors := ["Response Agent: LLM failed, using template: " ++ e] }

/-! ## Orchestrator (`graph.py`) -/

/-- Model of `state.RFPState`: the shared record threaded through the LangGraph
pipeline.  The `errors` field is annotated with `operator.add`, so stage
updates are concatenated onto it; every other field is overwritten. -/
structure RFPState where
  rfp_id : String
  rfp_text : String
  sections : List Section
  requirements : List Requirement
  project_summary : String
  budget_info : Option String
  timeline_info : Option String
  requirement_matches : List RequirementMatch
  overall_score : ℚ
  scoring_breakdown : Breakdown
  recommendations : List String
  proposal_summary : String
  technical_response : String
  commercial_response : String
  errors : List String
  current_agent : String
  deriving DecidableEq, Repr

/-- The initial state built by `run_rfp_analysis`. -/
def initialState (rfp_id rfp_text : String) : RFPState :=
  { rfp_id := rfp_id, rfp_text := rfp_text, sections := [], requirements := []
    project_summary := "", budget_info := none, timeline_info := none
    requirement_matches := [], overall_score := 0, scoring_breakdown := []
    recommendations := [], proposal_summary := "", technical_response := ""
    commercial_response := "", errors := [], current_agent := "" }

/-- Merge of a parser update into the state (LangGraph semantics: `errors`
concatenates, the rest overwrites). -/
def applyParser (s : RFPState) (u : ParserUpdate) : RFPState :=
  { s with sections := u.sections, current_agent := u.current_agent
           errors := s.errors ++ u.errors }

def applyAnalyzer (s : RFPState) (u : AnalyzerUpdate) : RFPState :=
  { s with requirements := u.requirements, project_summary := u.project_summary
           budget_info := u.budget_info, timeline_info := u.timeline_info
           current_agent := u.current_agent, errors := s.errors ++ u.errors }

def applyMatcher (s : RFPState) (u : MatcherUpdate) : RFPState :=
  { s with requirement_matches := u.requirement_matches
           current_agent := u.current_agent, errors := s.errors ++ u.errors }

def applyScorer (s : RFPState) (u : ScorerUpdate) : RFPState :=
  { s with overall_score := u.overall_score
           scoring_breakdown := u.scoring_breakdown
           recommendations := u.recommendations
           current_agent := u.current_agent, errors := s.errors ++ u.errors }

def applyResponse (s : RFPState) (u : ResponseUpdate) : RFPState :=
  { s with proposal_summary := u.proposal_summary
           technical_response := u.technical_response
           commercial_response := u.commercial_response
           current_agent := u.current_agent, errors := s.errors ++ u.errors }

/-- Routing function named should_continue_after_parser in graph.py: route to
the analyzer only when at least one section was produced, otherwise to END. -/
def should_continue_after_parsing (s : RFPState) : String :=
  if 0 < s.sections.length then "analyzer" else "end"

/-- Model of `should_continue_after_analyzer` (graph.py): skip the matcher when no
requirements were extracted. -/
def should_continue_after_analyzer (s : RFPState) : String :=
  if 0 < s.requirements.length then "matcher" else "scorer"

/-- Model of `should_continue_after_matcher` (graph.py): unconditional. -/
def should_continue_after_matcher (_ : RFPState) : String := "scorer"

/-- Model of `should_continue_after_scorer` (graph.py): unconditional. -/
def should_continue_after_scorer (_ : RFPState) : String := "response"

/-- All oracle outcomes of one pipeline run: the acquisition and
invocation/parse outcomes of every external call the stages can make. -/
structure RunOracle where
  parserAcq : Except String Unit
  parserCall : Except String (List Section)
  analyzerAcq : Except String Unit
  analyzerCall : Except String ParsedAnalysis
  sessionAcq : Except String Unit
  reqOracle : ℕ → ReqOracle
  scorerAcq : Except String Unit
  scorerCall : Except String ParsedScore
  responseAcq : Except String Unit
  responseCall : Except String ParsedResponse

/-- The compiled graph's execution (`rfp_analysis_graph.invoke`): parser, then
the two conditional routes, then the unconditional matcher → scorer → response
chain.  A stage raising (an `.error`) propagates out of `invoke`. -/
def runGraph (o : RunOracle) (s0 : RFPState) : Except String RFPState :=
  match parser_agent o.parserAcq o.parserCall with
  | .error e => .error e
  | .ok pu =>
    let s1 := applyParser s0 pu
    if should_continue_after_parsing s1 = "end" then .ok s1
    else
      match analyzer_agent o.analyzerAcq o.analyzerCall s1.sections with
      | .error e => .error e
      | .ok au =>
        let s2 := applyAnalyzer s1 au
        let afterMatcher : Except String RFPState :=
          if should_continue_after_analyzer s2 = "matcher" then
            match matcher_agent o.sessionAcq o.reqOracle s2.requirements with
            | .error e => .error e
            | .ok mu => .ok (applyMatcher s2 mu)
          else .ok s2
        match afterMatcher with
        | .error e => .error e
        | .ok s3 =>
          match scorer_agent o.scorerAcq o.scorerCall s3.requirement_matches with
          | .error e => .error e
          | .ok su =>
            let s4 := applyScorer s3 su
            match response_agent o.responseAcq o.responseCall s4.requirements
                s4.requirement_matches with
            | .error e => .error e
            | .ok ru => .ok (applyResponse s4 ru)

/-- The run summary dictionary assembled by `run_rfp_analysis` (graph.py lines
134-161); only the claim-relevant keys are carried. -/
structure RunResult where
  rfp_id : String
  status : String
  sections_found : ℕ
  requirements_extracted : ℕ
  requirements_matched : ℕ
  overall_score : ℚ
  scoring_breakdown : Breakdown
  recommendations : List String
  requirement_matches : List RequirementMatch
  errors : List String
  deriving DecidableEq, Repr

/-- Result formatting of `run_rfp_analysis`: `status` is "completed" exactly
when the accumulated error log is empty. -/
def formatResult (s : RFPState) : RunResult :=
  { rfp_id := s.rfp_id
    status := if s.errors.isEmpty then "completed" else "completed_with_errors"
    sections_found := s.sections.length
    requirements_extracted := s.requirements.length
    requirements_matched :=
      (s.requirement_matches.filter (fun rm => rm.best_match.isSome)).length
    overall_score := s.overall_score
    scoring_breakdown := s.scoring_breakdown
    recommendations := s.recommendations
    requirement_matches := s.requirement_matches
    errors := s.errors }

/-- Model of `run_rfp_analysis` (graph.py): build the initial state, invoke the graph,
format the result; an exception raised by a stage propagates to the caller. -/
def run_rfp_analysis (o : RunOracle) (rfp_id rfp_text : String) :
    Except String RunResult :=
  match runGraph o (initialState rfp_id rfp_text) with
  | .error e => .error e
  | .ok s => .ok (formatResult s)

/-! ## Concrete fixtures used by witnesses and counterexamples -/

/-- The section-8 end-to-end requirement specifications: 3.5C x 95 mm2 XLPE
Aluminium cable at 1.1 kV, quantity 5000, no armour. -/
def specs9 : Specs :=
  { voltage_kv := some (mkRat 11 10)
    conductor := some "Aluminum"
    cores := some "3.5C"
    cross_section_mm2 := some 95
    insulation := some "XLPE"
    quantity := some (some 5000)
    quantity_unit := some (some "meters") }

/-- The section-8 exact-match catalog candidate: price 120/meter, in stock,
lead time 5 days. -/
def cand9 : Candidate :=
  { component_id := 1
    sku := "SKU-001"
    name := "3.5C x 95 sqmm XLPE Aluminium LT Cable"
    category := "LT Cable"
    voltage_kv := some (mkRat 11 10)
    conductor := some "Aluminum"
    cores := some "3.5C"
    cross_section_mm2 := some 95
    insulation := some "XLPE"
    armour := none
    standard := some "IS:7098"
    price_per_meter := 120
    in_stock := true
    lead_time_days := 5 }

/-- The section-8 catalog row; `component_to_dict comp9 = cand9`. -/
def comp9 : Component :=
  { id := 1
    sku := "SKU-001"
    name := "3.5C x 95 sqmm XLPE Aluminium LT Cable"
    category := "LT Cable"
    voltage_kv := some (mkRat 11 10)
    conductor := some "Aluminum"
    cores := some "3.5C"
    cross_section_mm2 := some 95
    insulation := some "XLPE"
    armour := none
    standard := some "IS:7098"
    price_per_meter := some 120
    in_stock := true
    lead_time_days := some 5 }

/-- The section-8 requirement wrapped as a normalized `Requirement`. -/
def req9 : Requirement :=
  { id := "REQ-001"
    description := "Supply 5000 meters of 3.5C x 95 sqmm XLPE Aluminium cable at 1.1 kV"
    category := "technical"
    priority := "mandatory"
    specifications := specs9 }

/-- A requirement whose conductor is present but the empty string — falsy in
Python, hence treated like an absent field by the code. -/
def specsEmptyConductor : Specs := { conductor := some "" }

/-- A candidate that does carry a conductor value. -/
def candCopper : Candidate :=
  { component_id := 7
    sku := "SKU-007"
    name := "Copper cable"
    category := "LT Cable"
    voltage_kv := none
    conductor := some "Copper"
    cores := none
    cross_section_mm2 := none
    insulation := none
    armour := none
    standard := none
    price_per_meter := 0
    in_stock := true
    lead_time_days := 0 }

/-- Two distinct retrieved candidates for the LLM-path counterexamples. -/
def candA : Candidate :=
  { candCopper with component_id := 1, sku := "SKU-A", name := "Cable A" }

def candB : Candidate :=
  { candCopper with component_id := 2, sku := "SKU-B", name := "Cable B" }

/-- A structurally valid LLM scoring response whose scores are not sorted and
whose coverage exceeds 100 — nothing in the matcher re-sorts or clamps it. -/
def llmUnsorted : MatchResult :=
  { scored_matches :=
      [{ component_id := 1, score := 10, matched_specs := [], notes := "" },
       { component_id := 2, score := 90, matched_specs := [], notes := "" }]
    best_match_id := some 2
    coverage_score := 150 }

/-- An LLM scoring response whose component ids do not occur among the
retrieved candidates. -/
def llmUnknownIds : MatchResult :=
  { scored_matches :=
      [{ component_id := 100, score := 80, matched_specs := [], notes := "" }]
    best_match_id := some 100
    coverage_score := 80 }

/-- Per-requirement oracle with every catalog/LLM interaction succeeding on
fixed data. -/
def okReqOracle (cands : List Candidate) (res : MatchResult) : ReqOracle :=
  { queryRes := .ok cands, llmAcq := .ok (), llmCall := .ok res }

/-- A run oracle in which every LLM handle acquisition fails, as happens when
`GOOGLE_API_KEY` is unset (`get_llm` raises `ValueError`). -/
def oracleNoKey : RunOracle :=
  { parserAcq := .error "GOOGLE_API_KEY not found in environment variables"
    parserCall := .error "not reached"
    analyzerAcq := .error "GOOGLE_API_KEY not found in environment variables"
    analyzerCall := .error "not reached"
    sessionAcq := .error "could not connect to database"
    reqOracle := fun _ => okReqOracle [] (SimpleResult.toMatchResult
      (simple_score_matches {} []))
    scorerAcq := .error "GOOGLE_API_KEY not found in environment variables"
    scorerCall := .error "not reached"
    responseAcq := .error "GOOGLE_API_KEY not found in environment variables"
    responseCall := .error "not reached" }

/-- A run oracle whose parser invocation raises (e.g. the model returned
non-JSON text): the parser stage logs the failure and yields zero sections. -/
def oracleParserFail : RunOracle :=
  { oracleNoKey with
    parserAcq := .ok ()
    parserCall := .error "Failed to parse LLM response as JSON" }

/-- A run oracle for a fully successful zero-section run: the model answered
with valid JSON containing no sections. -/
def oracleZeroSections : RunOracle :=
  { oracleNoKey with parserAcq := .ok (), parserCall := .ok [] }

/-- The parser update of a successful zero-section parse. -/
def parserUpdateZero : ParserUpdate :=
  { sections := [], current_agent := "parser", errors := [] }

/-- The section-8 specifications with the quantity key present but JSON null
(the analyzer prompt instructs "Use null for specifications not mentioned"). -/
def specsNullQty : Specs := { specs9 with quantity := some none }

/-- The analyzer response of the happy-path fixture. -/
def parsedAnalysisHappy : ParsedAnalysis :=
  { requirements :=
      [{ id := some "REQ-001"
         description := some req9.description
         category := some "technical"
         priority := some "mandatory"
         specifications := some specs9 }]
    project_summary := some "Cable tender"
    budget_info := none
    timeline_info := none }

/-- A fully successful single-requirement run over the section-8 scenario data,
with every LLM invocation failing over to the deterministic fallback. -/
def oracleHappy : RunOracle :=
  { parserAcq := .ok ()
    parserCall := .ok [{ name := "Scope of Work"
                         content := "Supply 5000 meters of cable", page_number := none }]
    analyzerAcq := .ok ()
    analyzerCall := .ok parsedAnalysisHappy
    sessionAcq := .ok ()
    reqOracle := fun _ =>
      { queryRes := .ok [cand9], llmAcq := .ok (), llmCall := .error "timeout" }
    scorerAcq := .ok ()
    scorerCall := .error "timeout"
    responseAcq := .ok ()
    responseCall := .error "timeout" }

/-- The analyzer response whose one requirement carries a present-but-null
quantity. -/
def parsedAnalysisNullQty : ParsedAnalysis :=
  { requirements :=
      [{ id := some "REQ-001"
         description := some req9.description
         category := some "technical"
         priority := some "mandatory"
         specifications := some specsNullQty }]
    project_summary := some "Cable tender"
    budget_info := none
    timeline_info := none }

/-- A run oracle in which every acquisition succeeds, yet the extracted
requirement's `"quantity": null` makes the response stage's line-item loop
raise a `TypeError` before its `try` block. -/
def oracleNullQuantity : RunOracle :=
  { oracleHappy with analyzerCall := .ok parsedAnalysisNullQty }

/-! ## Named score components (reading aids for the claim statements) -/

/-- The voltage contribution of the fallback scoring loop: 25 points exactly
when both sides carry a truthy rating and the candidate's is at least the
requirement's. -/
def voltagePoints (specs : Specs) (comp : Candidate) : ℕ :=
  (numField 25 (fun r c => r ≤ c) specs.voltage_kv comp.voltage_kv).1

/-- The five non-voltage contributions of the fallback scoring loop. -/
def nonVoltagePoints (specs : Specs) (comp : Candidate) : ℕ :=
  (numField 25 (fun r c => c == r) specs.cross_section_mm2 comp.cross_section_mm2).1 +
  (strField 15 (fun r c => lowerContains c r) specs.conductor comp.conductor).1 +
  (strField 15 (fun r c => lowerContains c r) specs.insulation comp.insulation).1 +
  (strField 10 (fun r c => r == c) specs.cores comp.cores).1 +
  (strField 10 (fun r c => lowerContains c r) specs.armour comp.armour).1

/-! ## Lemmas about the fallback scorer -/

theorem numField_fst_le (pts : ℕ) (ok : ℚ → ℚ → Bool) (a b : Option ℚ) :
    (numField pts ok a b).1 ≤ pts := by
  unfold numField
  rcases pyNum a with _ | r <;> rcases pyNum b with _ | c <;> simp
  split <;> simp

theorem strField_fst_le (pts : ℕ) (ok : String → String → Bool)
    (a b : Option String) : (strField pts ok a b).1 ≤ pts := by
  unfold strField
  rcases pyStr a with _ | r <;> rcases pyStr b with _ | c <;> simp
  split <;> simp

theorem numField_fst_dichotomy (pts : ℕ) (ok : ℚ → ℚ → Bool) (a b : Option ℚ) :
    (numField pts ok a b).1 = 0 ∨ (numField pts ok a b).1 = pts := by
  unfold numField
  rcases pyNum a with _ | r <;> rcases pyNum b with _ | c <;> simp
  split <;> simp

theorem numField_fst_eq_iff (pts : ℕ) (hpts : 0 < pts) (ok : ℚ → ℚ → Bool)
    (a b : Option ℚ) :
    (numField pts ok a b).1 = pts ↔
      ∃ r c, pyNum a = some r ∧ pyNum b = some c ∧ ok r c = true := by
  unfold numField
  rcases pyNum a with _ | r <;> rcases pyNum b with _ | c <;> simp <;>
    try omega
  split <;> simp_all
  omega

theorem scoreCandidate_score_decomp (specs : Specs) (comp : Candidate) :
    (scoreCandidate specs comp).score =
      voltagePoints specs comp + nonVoltagePoints specs comp := by
  simp [scoreCandidate, voltagePoints, nonVoltagePoints, Nat.add_assoc]

theorem scoreCandidate_score_le (specs : Specs) (comp : Candidate) :
    (scoreCandidate specs comp).score ≤ 100 := by
  have h1 := numField_fst_le 25 (fun r c => r ≤ c) specs.voltage_kv comp.voltage_kv
  have h2 := numField_fst_le 25 (fun r c => c == r) specs.cross_section_mm2
    comp.cross_section_mm2
  have h3 := strField_fst_le 15 (fun r c => lowerContains c r) specs.conductor
    comp.conductor
  have h4 := strField_fst_le 15 (fun r c => lowerContains c r) specs.insulation
    comp.insulation
  have h5 := strField_fst_le 10 (fun r c => r == c) specs.cores comp.cores
  have h6 := strField_fst_le 10 (fun r c => lowerContains c r) specs.armour
    comp.armour
  simp only [scoreCandidate]
  omega

/-! ## Lemmas about the stable descending sort -/

theorem mem_insertDesc {x a : ScoredMatch} {l : List ScoredMatch} :
    a ∈ insertDesc x l ↔ a = x ∨ a ∈ l := by
  induction l with
  | nil => simp [insertDesc]
  | cons y ys ih =>
    simp only [insertDesc]
    split
    · simp [or_comm, or_left_comm]
    · simp [ih]
      tauto

theorem pairwise_insertDesc {x : ScoredMatch} {l : List ScoredMatch}
    (hl : l.Pairwise (fun a b => b.score ≤ a.score)) :
    (insertDesc x l).Pairwise (fun a b => b.score ≤ a.score) := by
  induction l with
  | nil => simp [insertDesc]
  | cons y ys ih =>
    rcases List.pairwise_cons.mp hl with ⟨hy, hys⟩
    simp only [insertDesc]
    split
    · refine List.pairwise_cons.mpr ⟨?_, hl⟩
      intro z hz
      rcases List.mem_cons.mp hz with rfl | hz'
      · assumption
      · exact le_trans (hy z hz') (by assumption)
    · refine List.pairwise_cons.mpr ⟨?_, ih hys⟩
      intro z hz
      rcases mem_insertDesc.mp hz with rfl | hz'
      · omega
      · exact hy z hz'

theorem pairwise_sortDesc (l : List ScoredMatch) :
    (sortDesc l).Pairwise (fun a b => b.score ≤ a.score) := by
  induction l with
  | nil => simp [sortDesc]
  | cons x xs ih => exact pairwise_insertDesc ih

theorem mem_sortDesc {a : ScoredMatch} {l : List ScoredMatch} :
    a ∈ sortDesc l ↔ a ∈ l := by
  induction l with
  | nil => simp [sortDesc]
  | cons x xs ih => simp [sortDesc, mem_insertDesc, ih]

theorem filter_insertDesc (s : ℕ) (x : ScoredMatch) (l : List ScoredMatch) :
    (insertDesc x l).filter (fun e => e.score == s) =
      if x.score == s then x :: l.filter (fun e => e.score == s)
      else l.filter (fun e => e.score == s) := by
  induction l with
  | nil =>
    simp only [insertDesc, List.filter]
    by_cases hx : x.score = s
    · simp [hx]
    · have hb : (x.score == s) = false := by simpa using hx
      simp [hx, hb]
  | cons y ys ih =>
    simp only [insertDesc]
    split
    · simp [List.filter_cons]
    · rename_i hyx
      by_cases hx : x.score = s
      · have hy : ¬ y.score = s := by omega
        simp [List.filter_cons, ih, hx, hy]
      · simp [List.filter_cons, ih, hx]

theorem filter_sortDesc (s : ℕ) (l : List ScoredMatch) :
    (sortDesc l).filter (fun e => e.score == s) =
      l.filter (fun e => e.score == s) := by
  induction l with
  | nil => simp [sortDesc]
  | cons x xs ih =>
    simp only [sortDesc, filter_insertDesc, List.filter_cons, ih]

theorem head?_take_five {l : List ScoredMatch} : (l.take 5).head? = l.head? := by
  cases l <;> simp

/-- Every entry of the fallback result is the loop's score of one of the
candidates. -/
theorem mem_scored_matches {specs : Specs} {cands : List Candidate}
    {e : ScoredMatch} (h : e ∈ (simple_score_matches specs cands).scored_matches) :
    ∃ c ∈ cands, e = scoreCandidate specs c := by
  have h1 : e ∈ sortDesc (cands.map (scoreCandidate specs)) :=
    List.mem_of_mem_take h
  have h2 : e ∈ cands.map (scoreCandidate specs) := mem_sortDesc.mp h1
  rcases List.mem_map.mp h2 with ⟨c, hc, rfl⟩
  exact ⟨c, hc, rfl⟩

/-! ## Claim C2 -/

/-- C2: every entry the deterministic fallback scorer assigns to a candidate
is an integer score in [0,100] (ℕ-valued and at most 100), and the 25 voltage
points are awarded exactly when both sides carry a (truthy) voltage rating and
the candidate's rating is at least the requirement's — a candidate with a
strictly lower rating never receives them (the contribution is 0 or 25 and 25
forces the comparison to hold). -/
theorem fallback_score_bounds_voltage (specs : Specs) (cands : List Candidate)
    (e : ScoredMatch)
    (he : e ∈ (simple_score_matches specs cands).scored_matches) :
    e.score ≤ 100 ∧
    ∃ comp ∈ cands, e = scoreCandidate specs comp ∧
      e.score = voltagePoints specs comp + nonVoltagePoints specs comp ∧
      (voltagePoints specs comp = 25 ↔
        ∃ rv cv, pyNum specs.voltage_kv = some rv ∧
          pyNum comp.voltage_kv = some cv ∧ rv ≤ cv) ∧
      (voltagePoints specs comp = 0 ∨ voltagePoints specs comp = 25) := by
  rcases mem_scored_matches he with ⟨comp, hc, rfl⟩
  refine ⟨scoreCandidate_score_le _ _, comp, hc, rfl,
    scoreCandidate_score_decomp _ _, ?_, ?_⟩
  · have h := numField_fst_eq_iff 25 (by omega) (fun r c => r ≤ c)
      specs.voltage_kv comp.voltage_kv
    simpa [voltagePoints] using h
  · exact numField_fst_dichotomy 25 _ specs.voltage_kv comp.voltage_kv

/-- Witness for C2 at the section-8 scenario data. -/
theorem fallback_score_bounds_voltage_witness :
    (scoreCandidate specs9 cand9).score ≤ 100 ∧
    ∃ comp ∈ [cand9], scoreCandidate specs9 cand9 = scoreCandidate specs9 comp ∧
      (scoreCandidate specs9 cand9).score =
        voltagePoints specs9 comp + nonVoltagePoints specs9 comp ∧
      (voltagePoints specs9 comp = 25 ↔
        ∃ rv cv, pyNum specs9.voltage_kv = some rv ∧
          pyNum comp.voltage_kv = some cv ∧ rv ≤ cv) ∧
      (voltagePoints specs9 comp = 0 ∨ voltagePoints specs9 comp = 25) :=
  fallback_score_bounds_voltage specs9 [cand9] (scoreCandidate specs9 cand9)
    (by decide)

/-! ## Claim C4 -/

/-- C4: the fallback scorer's `scored_matches` is the stable descending sort of
the per-candidate scores truncated to 5: it is sorted descending, of length at
most 5, a prefix of the full sorted list, the sort preserves the original
relative order of equal-score entries (its restriction to any fixed score value
is unchanged), `best_match_id` is the first entry's component id (absent when
there are no candidates) and `coverage_score` the first entry's score (0 when
there are none). -/
theorem fallback_sort_truncation (specs : Specs) (cands : List Candidate) :
    ((simple_score_matches specs cands).scored_matches).Pairwise
      (fun a b => b.score ≤ a.score) ∧
    (simple_score_matches specs cands).scored_matches.length ≤ 5 ∧
    (simple_score_matches specs cands).scored_matches ++
        (sortDesc (cands.map (scoreCandidate specs))).drop 5 =
      sortDesc (cands.map (scoreCandidate specs)) ∧
    (∀ s : ℕ,
      (sortDesc (cands.map (scoreCandidate specs))).filter
          (fun e => e.score == s) =
        (cands.map (scoreCandidate specs)).filter (fun e => e.score == s)) ∧
    (simple_score_matches specs cands).best_match_id =
      ((simple_score_matches specs cands).scored_matches.head?).map
        (fun e => e.component_id) ∧
    (simple_score_matches specs cands).coverage_score =
      (((simple_score_matches specs cands).scored_matches.head?).map
        (fun e => e.score)).getD 0 := by
  refine ⟨?_, ?_, ?_, ?_, ?_, ?_⟩
  · exact List.Pairwise.sublist (List.take_sublist _ _) (pairwise_sortDesc _)
  · simp [simple_score_matches]
  · simp [simple_score_matches, List.take_append_drop]
  · exact fun s => filter_sortDesc s _
  · simp [simple_score_matches, head?_take_five]
  · simp [simple_score_matches, head?_take_five]

/-! ## Claim C9 -/

/-- C9 counterexample: in the section-8 end-to-end scenario (all six scored
fields except armour present and matching), the deterministic fallback gives
the exact-match candidate a score of 90, not the claimed 100: the armour field
is absent from the requirement, so its 10 points are omitted, and nothing
re-normalizes the total. -/
theorem scenario_score_counterexample :
    (simple_score_matches specs9 [cand9]).coverage_score = 90 ∧
    ¬ (simple_score_matches specs9 [cand9]).coverage_score = 100 ∧
    ((simple_score_matches specs9 [cand9]).scored_matches.map
      (fun e => e.score)) = [90] := by decide

/-- C9 as amended: the section-8 scenario's `RequirementMatch`, built by the
matching stage from the deterministic fallback result, has
`best_match.score = 90` and `coverage_score = 90` (the 10 armour points are
omitted because the requirement carries no armour field). -/
theorem scenario_score_ninety :
    score_matches_with_llm (Except.ok ()) (Except.error "LLM unavailable") req9
        [cand9] =
      Except.ok (SimpleResult.toMatchResult (simple_score_matches specs9 [cand9])) ∧
    ((buildRequirementMatch req9 [cand9]
        (SimpleResult.toMatchResult (simple_score_matches specs9 [cand9]))).best_match.map
      (fun m => m.score)) = some 90 ∧
    (buildRequirementMatch req9 [cand9]
        (SimpleResult.toMatchResult (simple_score_matches specs9 [cand9]))).coverage_score =
      90 :=
  ⟨rfl, by decide, by decide⟩

/-! ## Lookup lemmas for the per-field match map -/

theorem lookup_entryList_self (k : String) (b : Option Bool) :
    (entryList k b).lookup k = b := by
  cases b <;> simp [entryList]

theorem lookup_entryList_ne (k k' : String) (h : (k == k') = false)
    (b : Option Bool) : (entryList k' b).lookup k = none := by
  cases b <;> simp [entryList, List.lookup, h]

theorem lookup_append (k : String) (l1 l2 : List (String × Bool)) :
    (l1 ++ l2).lookup k = ((l1.lookup k).orElse (fun _ => l2.lookup k)) := by
  induction l1 with
  | nil => simp [List.lookup]
  | cons a t ih =>
    rcases a with ⟨k', v⟩
    by_cases hk : k == k'
    · simp [List.lookup, hk]
    · simp only [List.cons_append, List.lookup, Bool.not_eq_true] at *
      rw [Bool.eq_false_iff] at hk
      simp [hk, ih]

theorem lookup_fields_voltage (x1 x2 x3 x4 x5 x6 : Option Bool) :
    ((entryList "voltage_kv" x1 ++ entryList "cross_section_mm2" x2 ++
      entryList "conductor" x3 ++ entryList "insulation" x4 ++
      entryList "cores" x5 ++ entryList "armour" x6).lookup "voltage_kv") = x1 := by
  rcases x1 with _ | b1 <;> rcases x2 with _ | b2 <;> rcases x3 with _ | b3 <;>
    rcases x4 with _ | b4 <;> rcases x5 with _ | b5 <;> rcases x6 with _ | b6 <;> rfl

theorem lookup_fields_cross (x1 x2 x3 x4 x5 x6 : Option Bool) :
    ((entryList "voltage_kv" x1 ++ entryList "cross_section_mm2" x2 ++
      entryList "conductor" x3 ++ entryList "insulation" x4 ++
      entryList "cores" x5 ++ entryList "armour" x6).lookup "cross_section_mm2") =
      x2 := by
  rcases x1 with _ | b1 <;> rcases x2 with _ | b2 <;> rcases x3 with _ | b3 <;>
    rcases x4 with _ | b4 <;> rcases x5 with _ | b5 <;> rcases x6 with _ | b6 <;> rfl

theorem lookup_fields_conductor (x1 x2 x3 x4 x5 x6 : Option Bool) :
    ((entryList "voltage_kv" x1 ++ entryList "cross_section_mm2" x2 ++
      entryList "conductor" x3 ++ entryList "insulation" x4 ++
      entryList "cores" x5 ++ entryList "armour" x6).lookup "conductor") = x3 := by
  rcases x1 with _ | b1 <;> rcases x2 with _ | b2 <;> rcases x3 with _ | b3 <;>
    rcases x4 with _ | b4 <;> rcases x5 with _ | b5 <;> rcases x6 with _ | b6 <;> rfl

theorem lookup_fields_insulation (x1 x2 x3 x4 x5 x6 : Option Bool) :
    ((entryList "voltage_kv" x1 ++ entryList "cross_section_mm2" x2 ++
      entryList "conductor" x3 ++ entryList "insulation" x4 ++
      entryList "cores" x5 ++ entryList "armour" x6).lookup "insulation") = x4 := by
  rcases x1 with _ | b1 <;> rcases x2 with _ | b2 <;> rcases x3 with _ | b3 <;>
    rcases x4 with _ | b4 <;> rcases x5 with _ | b5 <;> rcases x6 with _ | b6 <;> rfl

theorem lookup_fields_cores (x1 x2 x3 x4 x5 x6 : Option Bool) :
    ((entryList "voltage_kv" x1 ++ entryList "cross_section_mm2" x2 ++
      entryList "conductor" x3 ++ entryList "insulation" x4 ++
      entryList "cores" x5 ++ entryList "armour" x6).lookup "cores") = x5 := by
  rcases x1 with _ | b1 <;> rcases x2 with _ | b2 <;> rcases x3 with _ | b3 <;>
    rcases x4 with _ | b4 <;> rcases x5 with _ | b5 <;> rcases x6 with _ | b6 <;> rfl

theorem lookup_fields_armour (x1 x2 x3 x4 x5 x6 : Option Bool) :
    ((entryList "voltage_kv" x1 ++ entryList "cross_section_mm2" x2 ++
      entryList "conductor" x3 ++ entryList "insulation" x4 ++
      entryList "cores" x5 ++ entryList "armour" x6).lookup "armour") = x6 := by
  rcases x1 with _ | b1 <;> rcases x2 with _ | b2 <;> rcases x3 with _ | b3 <;>
    rcases x4 with _ | b4 <;> rcases x5 with _ | b5 <;> rcases x6 with _ | b6 <;> rfl

theorem numField_snd_eq_none (pts : ℕ) (ok : ℚ → ℚ → Bool) (a b : Option ℚ) :
    (numField pts ok a b).2 = none ↔ pyNum a = none ∨ pyNum b = none := by
  unfold numField
  rcases pyNum a with _ | r <;> rcases pyNum b with _ | c <;> simp
  split <;> simp

theorem strField_snd_eq_none (pts : ℕ) (ok : String → String → Bool)
    (a b : Option String) :
    (strField pts ok a b).2 = none ↔ pyStr a = none ∨ pyStr b = none := by
  unfold strField
  rcases pyStr a with _ | r <;> rcases pyStr b with _ | c <;> simp
  split <;> simp

theorem numField_fst_of_none (pts : ℕ) (ok : ℚ → ℚ → Bool) (a b : Option ℚ)
    (h : pyNum a = none ∨ pyNum b = none) : (numField pts ok a b).1 = 0 := by
  unfold numField
  rcases h with h | h
  · rw [h]
  · rw [h]
    rcases pyNum a with _ | r <;> rfl

theorem strField_of_pyStr_left_none (pts : ℕ) (ok : String → String → Bool)
    (a b : Option String) (h : pyStr a = none) : strField pts ok a b = (0, none) := by
  unfold strField
  rw [h]

theorem numField_of_pyNum_left_none (pts : ℕ) (ok : ℚ → ℚ → Bool)
    (a b : Option ℚ) (h : pyNum a = none) : numField pts ok a b = (0, none) := by
  unfold numField
  rw [h]

/-! ## Claim C8 -/

/-- C8 counterexample: a conductor field that is present but the empty string
(distinct from absent in the data model) is nevertheless treated as absent by
the fallback scorer: it is omitted from the per-field match map and contributes
0, although the comparison — had it been performed — would have succeeded
(the empty string is a substring of "Copper"). -/
theorem falsy_field_counterexample :
    specsEmptyConductor.conductor = some "" ∧
    (scoreCandidate specsEmptyConductor candCopper).matched_specs = [] ∧
    (scoreCandidate specsEmptyConductor candCopper).score = 0 ∧
    lowerContains "Copper" "" = true :=
  ⟨rfl, by decide, by decide, by decide⟩

/-- C8 as amended: a specification field that is absent on either side — where
Python truthiness also classes a present 0 or present empty string as absent —
contributes 0 points and is omitted from the per-field match map (each key is
present in the map exactly when both sides carry a truthy value), and Tier-1
retrieval likewise drops a filter whose requirement-side value is 0 or empty;
zero/empty values are therefore *not* distinguished from absent ones. -/
theorem falsy_field_amended (specs : Specs) (comp : Candidate) :
    ((scoreCandidate specs comp).matched_specs.lookup "voltage_kv" = none ↔
      pyNum specs.voltage_kv = none ∨ pyNum comp.voltage_kv = none) ∧
    ((scoreCandidate specs comp).matched_specs.lookup "cross_section_mm2" = none ↔
      pyNum specs.cross_section_mm2 = none ∨ pyNum comp.cross_section_mm2 = none) ∧
    ((scoreCandidate specs comp).matched_specs.lookup "conductor" = none ↔
      pyStr specs.conductor = none ∨ pyStr comp.conductor = none) ∧
    ((scoreCandidate specs comp).matched_specs.lookup "insulation" = none ↔
      pyStr specs.insulation = none ∨ pyStr comp.insulation = none) ∧
    ((scoreCandidate specs comp).matched_specs.lookup "cores" = none ↔
      pyStr specs.cores = none ∨ pyStr comp.cores = none) ∧
    ((scoreCandidate specs comp).matched_specs.lookup "armour" = none ↔
      pyStr specs.armour = none ∨ pyStr comp.armour = none) ∧
    (pyNum specs.voltage_kv = none ∨ pyNum comp.voltage_kv = none →
      voltagePoints specs comp = 0) ∧
    (scoreCandidate { specs with conductor := some "" } comp =
      scoreCandidate { specs with conductor := none } comp) ∧
    (scoreCandidate { specs with voltage_kv := some 0 } comp =
      scoreCandidate { specs with voltage_kv := none } comp) ∧
    (mkFilters { specs with voltage_kv := some 0 } =
      mkFilters { specs with voltage_kv := none }) ∧
    (mkFilters { specs with conductor := some "" } =
      mkFilters { specs with conductor := none }) := by
  refine ⟨?_, ?_, ?_, ?_, ?_, ?_, ?_, ?_, ?_, ?_, ?_⟩
  · rw [show (scoreCandidate specs comp).matched_specs.lookup "voltage_kv" =
        (numField 25 (fun r c => r ≤ c) specs.voltage_kv comp.voltage_kv).2 from
      lookup_fields_voltage _ _ _ _ _ _]
    exact numField_snd_eq_none _ _ _ _
  · rw [show (scoreCandidate specs comp).matched_specs.lookup "cross_section_mm2" =
        (numField 25 (fun r c => c == r) specs.cross_section_mm2
          comp.cross_section_mm2).2 from lookup_fields_cross _ _ _ _ _ _]
    exact numField_snd_eq_none _ _ _ _
  · rw [show (scoreCandidate specs comp).matched_specs.lookup "conductor" =
        (strField 15 (fun r c => lowerContains c r) specs.conductor
          comp.conductor).2 from lookup_fields_conductor _ _ _ _ _ _]
    exact strField_snd_eq_none _ _ _ _
  · rw [show (scoreCandidate specs comp).matched_specs.lookup "insulation" =
        (strField 15 (fun r c => lowerContains c r) specs.insulation
          comp.insulation).2 from lookup_fields_insulation _ _ _ _ _ _]
    exact strField_snd_eq_none _ _ _ _
  · rw [show (scoreCandidate specs comp).matched_specs.lookup "cores" =
        (strField 10 (fun r c => r == c) specs.cores comp.cores).2 from
      lookup_fields_cores _ _ _ _ _ _]
    exact strField_snd_eq_none _ _ _ _
  · rw [show (scoreCandidate specs comp).matched_specs.lookup "armour" =
        (strField 10 (fun r c => lowerContains c r) specs.armour comp.armour).2 from
      lookup_fields_armour _ _ _ _ _ _]
    exact strField_snd_eq_none _ _ _ _
  · exact fun h => numField_fst_of_none _ _ _ _ h
  · have h1 : strField 15 (fun r c => lowerContains c r) (some "") comp.conductor =
        (0, none) := strField_of_pyStr_left_none _ _ _ _ rfl
    have h2 : strField 15 (fun r c => lowerContains c r) none comp.conductor =
        (0, none) := strField_of_pyStr_left_none _ _ _ _ rfl
    simp [scoreCandidate, h1, h2]
  · have h1 : numField 25 (fun r c => r ≤ c) (some 0) comp.voltage_kv = (0, none) :=
      numField_of_pyNum_left_none _ _ _ _ (by simp [pyNum])
    have h2 : numField 25 (fun r c => r ≤ c) none comp.voltage_kv = (0, none) :=
      numField_of_pyNum_left_none _ _ _ _ rfl
    simp [scoreCandidate, h1, h2]
  · simp [mkFilters, pyNum]
  · simp [mkFilters, pyStr]

/-! ## Claim C3 -/

theorem mkPriorityFilters_ne_nil (specs : Specs)
    (h : pyNum specs.voltage_kv ≠ none ∨ pyNum specs.cross_section_mm2 ≠ none) :
    mkPriorityFilters specs ≠ [] := by
  unfold mkPriorityFilters
  rcases hv : pyNum specs.voltage_kv with _ | v <;>
    rcases hc : pyNum specs.cross_section_mm2 with _ | c <;> simp_all

theorem mkFilters_ne_nil (specs : Specs)
    (h : pyNum specs.voltage_kv ≠ none ∨ pyNum specs.cross_section_mm2 ≠ none) :
    mkFilters specs ≠ [] := by
  unfold mkFilters
  rcases hv : pyNum specs.voltage_kv with _ | v <;>
    rcases hc : pyNum specs.cross_section_mm2 with _ | c <;>
    simp_all [List.append_eq_nil]

/-- C3: for a requirement that specifies a (truthy) voltage rating and/or
cross-section, retrieval follows the fixed relaxation order: the strict
conjunctive Tier-1 query capped at 10; if empty, the Tier-2 voltage/cross-
section query capped at 10; if that is also empty and a voltage rating is
present, the Tier-3 category-only query capped at 5, with the voltage/category
mapping v ≤ 1.1 → "LT Cable", 1.1 < v ≤ 33 → "HT Cable", 33 < v →
"EHV Cable"; and the empty sequence when no voltage rating is present and
Tiers 1/2 yield nothing. -/
theorem tiered_retrieval (catalog : List Component) (specs : Specs)
    (h : pyNum specs.voltage_kv ≠ none ∨ pyNum specs.cross_section_mm2 ≠ none) :
    (runQuery catalog (mkFilters specs) 10 ≠ [] →
      query_components_for_requirement catalog specs =
        (runQuery catalog (mkFilters specs) 10).map component_to_dict ∧
      (query_components_for_requirement catalog specs).length ≤ 10) ∧
    (runQuery catalog (mkFilters specs) 10 = [] →
      runQuery catalog (mkPriorityFilters specs) 10 ≠ [] →
      query_components_for_requirement catalog specs =
        (runQuery catalog (mkPriorityFilters specs) 10).map component_to_dict ∧
      (query_components_for_requirement catalog specs).length ≤ 10) ∧
    (∀ v : ℚ, runQuery catalog (mkFilters specs) 10 = [] →
      runQuery catalog (mkPriorityFilters specs) 10 = [] →
      pyNum specs.voltage_kv = some v →
      query_components_for_requirement catalog specs =
        (runQuery catalog [fun c => c.category == fallbackCategory v] 5).map
          component_to_dict ∧
      (query_components_for_requirement catalog specs).length ≤ 5) ∧
    (runQuery catalog (mkFilters specs) 10 = [] →
      runQuery catalog (mkPriorityFilters specs) 10 = [] →
      pyNum specs.voltage_kv = none →
      query_components_for_requirement catalog specs = []) ∧
    (∀ v : ℚ, (v ≤ 1.1 → fallbackCategory v = "LT Cable") ∧
      (1.1 < v → v ≤ 33 → fallbackCategory v = "HT Cable") ∧
      (33 < v → fallbackCategory v = "EHV Cable")) := by
  have hf : (mkFilters specs).isEmpty = false := by
    simpa using mkFilters_ne_nil specs h
  have hpf : (mkPriorityFilters specs).isEmpty = false := by
    simpa using mkPriorityFilters_ne_nil specs h
  refine ⟨?_, ?_, ?_, ?_, ?_⟩
  · intro h1
    have h1' : (runQuery catalog (mkFilters specs) 10).isEmpty = false := by
      simpa using h1
    have heq : query_components_for_requirement catalog specs =
        (runQuery catalog (mkFilters specs) 10).map component_to_dict := by
      simp [query_components_for_requirement, hf, h1']
    refine ⟨heq, ?_⟩
    rw [heq]
    simp only [List.length_map, runQuery, List.length_take]
    exact Nat.min_le_left _ _
  · intro h1 h2
    have h1' : (runQuery catalog (mkFilters specs) 10).isEmpty = true := by
      simp [h1]
    have h2' : (runQuery catalog (mkPriorityFilters specs) 10).isEmpty = false := by
      simpa using h2
    have heq : query_components_for_requirement catalog specs =
        (runQuery catalog (mkPriorityFilters specs) 10).map component_to_dict := by
      simp [query_components_for_requirement, hf, hpf, h1', h2']
    refine ⟨heq, ?_⟩
    rw [heq]
    simp only [List.length_map, runQuery, List.length_take]
    exact Nat.min_le_left _ _
  · intro v h1 h2 hv
    have h1' : (runQuery catalog (mkFilters specs) 10).isEmpty = true := by
      simp [h1]
    have h2' : (runQuery catalog (mkPriorityFilters specs) 10).isEmpty = true := by
      simp [h2]
    have heq : query_components_for_requirement catalog specs =
        (runQuery catalog [fun c => c.category == fallbackCategory v] 5).map
          component_to_dict := by
      simp [query_components_for_requirement, hf, hpf, h1', h2', hv]
    refine ⟨heq, ?_⟩
    rw [heq]
    simp only [List.length_map, runQuery, List.length_take]
    exact Nat.min_le_left _ _
  · intro h1 h2 hv
    have h1' : (runQuery catalog (mkFilters specs) 10).isEmpty = true := by
      simp [h1]
    have h2' : (runQuery catalog (mkPriorityFilters specs) 10).isEmpty = true := by
      simp [h2]
    simp [query_components_for_requirement, hf, hpf, h1', h2', hv]
  · intro v
    refine ⟨?_, ?_, ?_⟩
    · intro hle
      simp [fallbackCategory, hle]
    · intro hgt hle
      simp [fallbackCategory, not_le.mpr hgt, hle]
    · intro hgt
      have hn1 : ¬ v ≤ 1.1 := by
        have h33 : (1.1 : ℚ) < 33 := by norm_num
        intro hc
        exact absurd hgt (not_lt.mpr (le_trans hc (le_of_lt h33)))
      have hn2 : ¬ v ≤ 33 := not_le.mpr hgt
      simp [fallbackCategory, hn1, hn2]

/-- Witness for C3: the section-8 requirement against the one-row catalog. -/
theorem tiered_retrieval_witness :
    (runQuery [comp9] (mkFilters specs9) 10 ≠ [] →
      query_components_for_requirement [comp9] specs9 =
        (runQuery [comp9] (mkFilters specs9) 10).map component_to_dict ∧
      (query_components_for_requirement [comp9] specs9).length ≤ 10) ∧
    (runQuery [comp9] (mkFilters specs9) 10 = [] →
      runQuery [comp9] (mkPriorityFilters specs9) 10 ≠ [] →
      query_components_for_requirement [comp9] specs9 =
        (runQuery [comp9] (mkPriorityFilters specs9) 10).map component_to_dict ∧
      (query_components_for_requirement [comp9] specs9).length ≤ 10) ∧
    (∀ v : ℚ, runQuery [comp9] (mkFilters specs9) 10 = [] →
      runQuery [comp9] (mkPriorityFilters specs9) 10 = [] →
      pyNum specs9.voltage_kv = some v →
      query_components_for_requirement [comp9] specs9 =
        (runQuery [comp9] [fun c => c.category == fallbackCategory v] 5).map
          component_to_dict ∧
      (query_components_for_requirement [comp9] specs9).length ≤ 5) ∧
    (runQuery [comp9] (mkFilters specs9) 10 = [] →
      runQuery [comp9] (mkPriorityFilters specs9) 10 = [] →
      pyNum specs9.voltage_kv = none →
      query_components_for_requirement [comp9] specs9 = []) ∧
    (∀ v : ℚ, (v ≤ 1.1 → fallbackCategory v = "LT Cable") ∧
      (1.1 < v → v ≤ 33 → fallbackCategory v = "HT Cable") ∧
      (33 < v → fallbackCategory v = "EHV Cable")) :=
  tiered_retrieval [comp9] specs9 (Or.inl (by decide))

/-! ## Lemmas for the matcher-stage invariant -/

theorem pairwise_filterMap_score {α β : Type} (f : α → Option β) (sa : α → ℚ)
    (sb : β → ℚ) (hf : ∀ a b, f a = some b → sb b = sa a) (l : List α)
    (h : l.Pairwise (fun x y => sa y ≤ sa x)) :
    (l.filterMap f).Pairwise (fun x y => sb y ≤ sb x) := by
  induction l with
  | nil => simp
  | cons x t ih =>
    rcases List.pairwise_cons.mp h with ⟨hx, ht⟩
    rcases hfx : f x with _ | b
    · simpa [List.filterMap_cons, hfx] using ih ht
    · simp only [List.filterMap_cons, hfx]
      refine List.pairwise_cons.mpr ⟨?_, ih ht⟩
      intro y hy
      rcases List.mem_filterMap.mp hy with ⟨a, ha, hfa⟩
      rw [hf a y hfa, hf x b hfx]
      exact hx a ha

theorem simple_coverage_le (specs : Specs) (cands : List Candidate) :
    (simple_score_matches specs cands).coverage_score ≤ 100 := by
  unfold simple_score_matches
  rcases hl : sortDesc (cands.map (scoreCandidate specs)) with _ | ⟨e, t⟩
  · simp
  · simp only [List.head?_cons, Option.map_some, Option.getD_some]
    have he : e ∈ sortDesc (cands.map (scoreCandidate specs)) := by
      rw [hl]
      exact List.mem_cons_self _ _
    rcases List.mem_map.mp (mem_sortDesc.mp he) with ⟨c, _, hc⟩
    rw [← hc]
    exact scoreCandidate_score_le specs c

/-! ## Claim C5 -/

/-- C5 counterexample: a structurally valid but unsorted, over-100 LLM scoring
response passes straight through the matching stage: the produced
`RequirementMatch` has `matches` scores `[10, 90]` (not descending) and
`coverage_score = 150 > 100`, violating the claimed invariant on the LLM
path.  The first conjunct shows the matching stage really returns this
`RequirementMatch`. -/
theorem llm_path_invariant_counterexample :
    matcher_agent (Except.ok ()) (fun _ => okReqOracle [candA, candB] llmUnsorted)
        [req9] =
      Except.ok
        { requirement_matches := [buildRequirementMatch req9 [candA, candB] llmUnsorted]
          current_agent := "matcher"
          errors := [] } ∧
    ((buildRequirementMatch req9 [candA, candB] llmUnsorted).«matches».map
      (fun m => m.score)) = [10, 90] ∧
    ¬ ((buildRequirementMatch req9 [candA, candB] llmUnsorted).«matches».Pairwise
      (fun a b => b.score ≤ a.score)) ∧
    (buildRequirementMatch req9 [candA, candB] llmUnsorted).coverage_score = 150 ∧
    ¬ ((buildRequirementMatch req9 [candA, candB] llmUnsorted).coverage_score ≤ 100) := by
  refine ⟨rfl, by decide, ?_, by decide, by decide⟩
  intro h
  have h1 := (List.pairwise_cons.mp h).1
  have h2 := h1 ((buildRequirementMatch req9 [candA, candB] llmUnsorted).«matches».get
    ⟨1, by decide⟩) (by decide)
  revert h2
  decide

/-- C5 as amended: `best_match = matches[0]`-or-absent holds on both scoring
paths, and the full invariant (matches sorted descending, coverage in [0,100])
holds for the deterministic fallback path (LLM invocation failed) and for the
no-candidates path; on a successful LLM path the sortedness and coverage
bounds are whatever the model returned, as the counterexample shows. -/
theorem matcher_invariant_amended (req : Requirement) (cands : List Candidate)
    (acq : Except String Unit) (llmCall : Except String MatchResult)
    (result : MatchResult)
    (hok : score_matches_with_llm acq llmCall req cands = Except.ok result) :
    (buildRequirementMatch req cands result).best_match =
      (buildRequirementMatch req cands result).«matches».head? ∧
    (emptyRequirementMatch req).best_match = none ∧
    (emptyRequirementMatch req).coverage_score = 0 ∧
    ((∃ e, llmCall = Except.error e) ∨ cands = [] →
      ((buildRequirementMatch req cands result).«matches».Pairwise
        (fun a b => b.score ≤ a.score)) ∧
      0 ≤ (buildRequirementMatch req cands result).coverage_score ∧
      (buildRequirementMatch req cands result).coverage_score ≤ 100) := by
  refine ⟨rfl, rfl, rfl, ?_⟩
  intro hcase
  by_cases hc : cands = []
  · subst hc
    simp only [score_matches_with_llm, List.isEmpty_nil, if_true] at hok
    injection hok with hok
    subst hok
    refine ⟨by simp [buildRequirementMatch, buildMatches],
      by norm_num [buildRequirementMatch], by norm_num [buildRequirementMatch]⟩
  · have hce : cands.isEmpty = false := by simpa using hc
    rcases hcase with ⟨e, he⟩ | hc'
    · subst he
      rcases acq with e' | u
      · simp [score_matches_with_llm, hce] at hok
      · simp only [score_matches_with_llm, hce, Bool.false_eq_true, if_false] at hok
        injection hok with hok
        subst hok
        have hsorted :
            ((simple_score_matches req.specifications cands).scored_matches).Pairwise
              (fun a b => b.score ≤ a.score) :=
          List.Pairwise.sublist (List.take_sublist _ _) (pairwise_sortDesc _)
        refine ⟨?_, ?_, ?_⟩
        · simp only [buildRequirementMatch, buildMatches]
          refine pairwise_filterMap_score _ (fun s : LLMScored => s.score)
            (fun m : ComponentMatch => m.score) ?_ _ ?_
          · intro a m hm
            rcases hfind : cands.find? (fun c => c.component_id == a.component_id)
              with _ | c
            · rw [hfind] at hm
              exact absurd hm (by simp)
            · rw [hfind] at hm
              simp only [Option.map_some', Option.some.injEq] at hm
              rw [← hm]
          · simp only [SimpleResult.toMatchResult]
            rw [List.pairwise_map]
            exact hsorted.imp (fun hab => Nat.cast_le.mpr hab)
        · simp only [buildRequirementMatch, SimpleResult.toMatchResult]
          positivity
        · simp only [buildRequirementMatch, SimpleResult.toMatchResult]
          exact_mod_cast simple_coverage_le req.specifications cands
    · exact absurd hc' hc

/-- Witness for C5's amended theorem: the section-8 data with the LLM scoring
call failing over to the deterministic fallback. -/
theorem matcher_invariant_amended_witness :
    (buildRequirementMatch req9 [cand9]
        (SimpleResult.toMatchResult
          (simple_score_matches req9.specifications [cand9]))).best_match =
      (buildRequirementMatch req9 [cand9]
        (SimpleResult.toMatchResult
          (simple_score_matches req9.specifications [cand9]))).«matches».head? ∧
    (emptyRequirementMatch req9).best_match = none ∧
    (emptyRequirementMatch req9).coverage_score = 0 ∧
    ((∃ e, (Except.error "LLM down" : Except String MatchResult) =
        Except.error e) ∨ [cand9] = [] →
      ((buildRequirementMatch req9 [cand9]
        (SimpleResult.toMatchResult
          (simple_score_matches req9.specifications [cand9]))).«matches».Pairwise
        (fun a b => b.score ≤ a.score)) ∧
      0 ≤ (buildRequirementMatch req9 [cand9]
        (SimpleResult.toMatchResult
          (simple_score_matches req9.specifications [cand9]))).coverage_score ∧
      (buildRequirementMatch req9 [cand9]
        (SimpleResult.toMatchResult
          (simple_score_matches req9.specifications [cand9]))).coverage_score ≤ 100) :=
  matcher_invariant_amended req9 [cand9] (Except.ok ()) (Except.error "LLM down")
    (SimpleResult.toMatchResult (simple_score_matches req9.specifications [cand9]))
    rfl

/-- Witness for C8's amended theorem at the empty-string-conductor fixture. -/
theorem falsy_field_amended_witness :
    ((scoreCandidate specsEmptyConductor candCopper).matched_specs.lookup "voltage_kv" = none ↔
      pyNum specsEmptyConductor.voltage_kv = none ∨ pyNum candCopper.voltage_kv = none) ∧
    ((scoreCandidate specsEmptyConductor candCopper).matched_specs.lookup "cross_section_mm2" = none ↔
      pyNum specsEmptyConductor.cross_section_mm2 = none ∨
        pyNum candCopper.cross_section_mm2 = none) ∧
    ((scoreCandidate specsEmptyConductor candCopper).matched_specs.lookup "conductor" = none ↔
      pyStr specsEmptyConductor.conductor = none ∨ pyStr candCopper.conductor = none) ∧
    ((scoreCandidate specsEmptyConductor candCopper).matched_specs.lookup "insulation" = none ↔
      pyStr specsEmptyConductor.insulation = none ∨ pyStr candCopper.insulation = none) ∧
    ((scoreCandidate specsEmptyConductor candCopper).matched_specs.lookup "cores" = none ↔
      pyStr specsEmptyConductor.cores = none ∨ pyStr candCopper.cores = none) ∧
    ((scoreCandidate specsEmptyConductor candCopper).matched_specs.lookup "armour" = none ↔
      pyStr specsEmptyConductor.armour = none ∨ pyStr candCopper.armour = none) ∧
    (pyNum specsEmptyConductor.voltage_kv = none ∨ pyNum candCopper.voltage_kv = none →
      voltagePoints specsEmptyConductor candCopper = 0) ∧
    (scoreCandidate { specsEmptyConductor with conductor := some "" } candCopper =
      scoreCandidate { specsEmptyConductor with conductor := none } candCopper) ∧
    (scoreCandidate { specsEmptyConductor with voltage_kv := some 0 } candCopper =
      scoreCandidate { specsEmptyConductor with voltage_kv := none } candCopper) ∧
    (mkFilters { specsEmptyConductor with voltage_kv := some 0 } =
      mkFilters { specsEmptyConductor with voltage_kv := none }) ∧
    (mkFilters { specsEmptyConductor with conductor := some "" } =
      mkFilters { specsEmptyConductor with conductor := none }) :=
  falsy_field_amended specsEmptyConductor candCopper

/-! ## Claim C10 -/

/-- C10: every `ComponentMatch` the matching stage places in a
`RequirementMatch` has a `component_id` drawn from the retrieved candidate
list; a scored entry whose id is unknown is silently dropped (the stage's
error list stays empty), so `best_match` can be absent even though the
model-supplied `coverage_score` is retained unchanged. -/
theorem matches_from_candidates (req : Requirement) (cands : List Candidate)
    (res : MatchResult) :
    (∀ m ∈ (buildRequirementMatch req cands res).«matches»,
      ∃ c ∈ cands, c.component_id = m.component_id) ∧
    (buildRequirementMatch req cands res).coverage_score = res.coverage_score ∧
    (buildRequirementMatch req cands res).best_match =
      (buildRequirementMatch req cands res).«matches».head? ∧
    ((∀ s ∈ res.scored_matches,
        cands.find? (fun c => c.component_id == s.component_id) = none) →
      (buildRequirementMatch req cands res).«matches» = [] ∧
      (buildRequirementMatch req cands res).best_match = none) ∧
    (∀ oracle : ℕ → ReqOracle, oracle 0 = okReqOracle cands res → cands ≠ [] →
      matcher_agent (Except.ok ()) oracle [req] =
        Except.ok { requirement_matches := [buildRequirementMatch req cands res]
                    current_agent := "matcher"
                    errors := [] }) := by
  refine ⟨?_, rfl, rfl, ?_, ?_⟩
  · intro m hm
    simp only [buildRequirementMatch, buildMatches] at hm
    rcases List.mem_filterMap.mp hm with ⟨s, _, heq⟩
    rcases hfind : cands.find? (fun c => c.component_id == s.component_id)
      with _ | c
    · rw [hfind] at heq
      exact absurd heq (by simp)
    · rw [hfind] at heq
      simp only [Option.map_some', Option.some.injEq] at heq
      refine ⟨c, List.mem_of_find?_eq_some hfind, ?_⟩
      rw [← heq]
  · intro hall
    have h1 : (buildRequirementMatch req cands res).«matches» = [] := by
      simp only [buildRequirementMatch, buildMatches]
      rw [List.filterMap_eq_nil_iff]
      intro s hs
      rw [hall s hs]
      rfl
    refine ⟨h1, ?_⟩
    have h2 : (buildRequirementMatch req cands res).best_match =
        (buildRequirementMatch req cands res).«matches».head? := rfl
    rw [h2, h1]
    rfl
  · intro oracle ho hc
    have hce : cands.isEmpty = false := by simpa using hc
    simp [matcher_agent, matcherLoop, ho, okReqOracle, score_matches_with_llm, hce]

/-- Witness for C10: one scored entry whose id 100 occurs among no retrieved
candidate. -/
theorem matches_from_candidates_witness :
    (∀ m ∈ (buildRequirementMatch req9 [candA, candB] llmUnknownIds).«matches»,
      ∃ c ∈ [candA, candB], c.component_id = m.component_id) ∧
    (buildRequirementMatch req9 [candA, candB] llmUnknownIds).coverage_score =
      llmUnknownIds.coverage_score ∧
    (buildRequirementMatch req9 [candA, candB] llmUnknownIds).best_match =
      (buildRequirementMatch req9 [candA, candB] llmUnknownIds).«matches».head? ∧
    ((∀ s ∈ llmUnknownIds.scored_matches,
        [candA, candB].find? (fun c => c.component_id == s.component_id) = none) →
      (buildRequirementMatch req9 [candA, candB] llmUnknownIds).«matches» = [] ∧
      (buildRequirementMatch req9 [candA, candB] llmUnknownIds).best_match = none) ∧
    (∀ oracle : ℕ → ReqOracle,
      oracle 0 = okReqOracle [candA, candB] llmUnknownIds → [candA, candB] ≠ [] →
      matcher_agent (Except.ok ()) oracle [req9] =
        Except.ok
          { requirement_matches :=
              [buildRequirementMatch req9 [candA, candB] llmUnknownIds]
            current_agent := "matcher"
            errors := [] }) :=
  matches_from_candidates req9 [candA, candB] llmUnknownIds

/-! ## Claim C6 -/

/-- C6: the scoring stage never raises on empty input — with an empty
`requirement_matches` it returns, for any oracle outcomes, overall score 0, an
empty (well-defined) breakdown and the explicit nothing-to-evaluate
recommendation, short-circuiting before the LLM handle is even acquired; and
in its deterministic fallback on non-empty input the overall score is the mean
of the coverage scores, the technical-coverage entry's weighted score is
`average_coverage * 0.4`, and the availability entry's weighted score is
`stock_ratio * 20` with the 0/0 stock ratio defined as 0. -/
theorem scorer_empty_and_fallback :
    (∀ (acq : Except String Unit) (call : Except String ParsedScore),
      scorer_agent acq call [] =
        Except.ok
          { overall_score := 0
            scoring_breakdown := []
            recommendations := ["No requirements were matched. Unable to evaluate."]
            current_agent := "scorer"
            errors := ["Scorer Agent: No matches to score"] }) ∧
    (∀ (rms : List RequirementMatch) (e : String), rms ≠ [] →
      ((scorer_agent (Except.ok ()) (Except.error e) rms).map
          (fun su => su.overall_score)) =
        Except.ok ((rms.map (fun rm => rm.coverage_score)).sum / (rms.length : ℚ)) ∧
      ((scorer_agent (Except.ok ()) (Except.error e) rms).map
          (fun su => (su.scoring_breakdown.lookup "technical_coverage").map
            (fun b => b.weighted_score))) =
        Except.ok (some
          ((rms.map (fun rm => rm.coverage_score)).sum / (rms.length : ℚ) * 0.4)) ∧
      ((scorer_agent (Except.ok ()) (Except.error e) rms).map
          (fun su => (su.scoring_breakdown.lookup "availability").map
            (fun b => b.weighted_score))) =
        Except.ok (some
          (if 0 < (rms.filter (fun rm => rm.best_match.isSome)).length then
            ((rms.filter (fun rm =>
                (rm.best_match.map (fun m => m.in_stock)).getD false)).length : ℚ) /
              ((rms.filter (fun rm => rm.best_match.isSome)).length : ℚ) * 20
          else 0))) := by
  refine ⟨fun acq call => rfl, ?_⟩
  intro rms e h
  have hpos : 0 < rms.length := List.length_pos.mpr h
  have hne : rms.isEmpty = false := by simpa using h
  refine ⟨?_, ?_, ?_⟩ <;> simp [scorer_agent, hne, hpos, Except.map, List.lookup]

/-- Witness for C6's non-empty fallback part at a one-element match list. -/
theorem scorer_empty_and_fallback_witness :
    ((scorer_agent (Except.ok ()) (Except.error "boom")
        [emptyRequirementMatch req9]).map (fun su => su.overall_score)) =
      Except.ok
        (([emptyRequirementMatch req9].map (fun rm => rm.coverage_score)).sum /
          (([emptyRequirementMatch req9].length : ℚ))) ∧
    ((scorer_agent (Except.ok ()) (Except.error "boom")
        [emptyRequirementMatch req9]).map
        (fun su => (su.scoring_breakdown.lookup "technical_coverage").map
          (fun b => b.weighted_score))) =
      Except.ok (some
        (([emptyRequirementMatch req9].map (fun rm => rm.coverage_score)).sum /
          (([emptyRequirementMatch req9].length : ℚ)) * 0.4)) ∧
    ((scorer_agent (Except.ok ()) (Except.error "boom")
        [emptyRequirementMatch req9]).map
        (fun su => (su.scoring_breakdown.lookup "availability").map
          (fun b => b.weighted_score))) =
      Except.ok (some
        (if 0 < ([emptyRequirementMatch req9].filter
            (fun rm => rm.best_match.isSome)).length then
          ((([emptyRequirementMatch req9].filter (fun rm =>
              (rm.best_match.map (fun m => m.in_stock)).getD false)).length : ℚ)) /
            ((([emptyRequirementMatch req9].filter
              (fun rm => rm.best_match.isSome)).length : ℚ)) * 20
        else 0)) :=
  scorer_empty_and_fallback.2 [emptyRequirementMatch req9] "boom" (by simp)

/-! ## Stage totality lemmas (everything inside the try blocks is caught) -/

theorem except_isOk_exists {ε α : Type} {x : Except ε α} (h : x.isOk = true) :
    ∃ a, x = Except.ok a := by
  cases x
  · simp [Except.isOk, Except.toBool] at h
  · exact ⟨_, rfl⟩

theorem parser_agent_isOk (c : Except String (List Section)) :
    (parser_agent (Except.ok ()) c).isOk = true := by
  cases c <;> rfl

theorem analyzer_agent_isOk (c : Except String ParsedAnalysis)
    (secs : List Section) : (analyzer_agent (Except.ok ()) c secs).isOk = true := by
  simp only [analyzer_agent]
  split
  · rfl
  · cases c <;> rfl

theorem matcher_agent_isOk (oracle : ℕ -> ReqOracle) (reqs : List Requirement) :
    (matcher_agent (Except.ok ()) oracle reqs).isOk = true := by
  unfold matcher_agent
  split
  · rfl
  · rfl

theorem scorer_agent_isOk (c : Except String ParsedScore)
    (rms : List RequirementMatch) :
    (scorer_agent (Except.ok ()) c rms).isOk = true := by
  unfold scorer_agent
  split
  · rfl
  · cases c <;> rfl

theorem buildLineItems_isOk (reqs : List Requirement) (rms : List RequirementMatch)
    (h : ∀ r ∈ reqs, r.specifications.quantity ≠ some none) :
    (buildLineItems reqs rms).isOk = true := by
  induction rms with
  | nil => rfl
  | cons rm rest ih =>
    rcases hb : rm.best_match with _ | bm
    · simpa [buildLineItems, hb] using ih
    · have hq : (match (((reqs.find? (fun r : Requirement =>
            r.id == rm.requirement_id)).map
          (fun r : Requirement => r.specifications)).getD {}).quantity with
          | none => some (1000 : ℚ)
          | some v => v) ≠ none := by
        rcases hf : reqs.find? (fun r : Requirement => r.id == rm.requirement_id)
          with _ | r
        · simp
        · have hr := h r (List.mem_of_find?_eq_some hf)
          simp only [Option.map_some', Option.getD_some]
          rcases hqq : r.specifications.quantity with _ | v
          · simp
          · rcases v with _ | q
            · exact absurd hqq hr
            · simp
      rcases hv : (match (((reqs.find? (fun r : Requirement =>
            r.id == rm.requirement_id)).map
          (fun r : Requirement => r.specifications)).getD {}).quantity with
          | none => some (1000 : ℚ)
          | some v => v) with _ | q
      · exact absurd hv hq
      · obtain ⟨items, hi⟩ := except_isOk_exists ih
        simp [buildLineItems, hb, hv, hi, Except.isOk, Except.toBool]

/-- The response stage is total only when no requirement reaching it carries
a present-but-null quantity (otherwise the line-item loop raises before the
stage's `try`). -/
theorem response_agent_isOk (c : Except String ParsedResponse)
    (reqs : List Requirement) (rms : List RequirementMatch)
    (h : ∀ r ∈ reqs, r.specifications.quantity ≠ some none) :
    (response_agent (Except.ok ()) c reqs rms).isOk = true := by
  obtain ⟨items, hi⟩ := except_isOk_exists (buildLineItems_isOk reqs rms h)
  unfold response_agent
  rw [hi]
  cases c <;> rfl

theorem snd_mem_of_mem_enumFrom {α : Type} {l : List α} :
    ∀ {n : ℕ} {p : ℕ × α}, p ∈ l.enumFrom n → p.2 ∈ l := by
  induction l with
  | nil =>
    intro n p h
    simp [List.enumFrom] at h
  | cons x xs ih =>
    intro n p h
    simp only [List.enumFrom] at h
    rcases List.mem_cons.mp h with rfl | h'
    · exact List.mem_cons_self _ _
    · exact List.mem_cons_of_mem _ (ih h')

theorem snd_mem_of_mem_enum {α : Type} {l : List α} {p : ℕ × α}
    (h : p ∈ l.enum) : p.2 ∈ l :=
  snd_mem_of_mem_enumFrom h

/-- Every requirement the analyzer emits has a non-null quantity provided the
parsed response's raw requirements do (the normalization only defaults
missing sub-dicts, it cannot introduce a present null). -/
theorem analyzer_requirements_quantity (c : Except String ParsedAnalysis)
    (secs : List Section) (au : AnalyzerUpdate)
    (hau : analyzer_agent (Except.ok ()) c secs = Except.ok au)
    (hc : ∀ pa, c = Except.ok pa → ∀ raw ∈ pa.requirements,
      ((raw.specifications).getD {}).quantity ≠ some none) :
    ∀ r ∈ au.requirements, r.specifications.quantity ≠ some none := by
  simp only [analyzer_agent] at hau
  split at hau
  · injection hau with hau
    rw [← hau]
    intro r hr
    simp at hr
  · rcases hcc : c with e | pa
    · rw [hcc] at hau
      injection hau with hau
      rw [← hau]
      intro r hr
      simp at hr
    · rw [hcc] at hau
      injection hau with hau
      rw [← hau]
      intro r hr
      simp only [] at hr
      rcases List.mem_map.mp hr with ⟨p, hp, rfl⟩
      have hmem := snd_mem_of_mem_enum hp
      have hneq := hc pa hcc p.2 hmem
      simpa [normalizeRequirement] using hneq

/-- With all acquisitions succeeding and no extracted requirement carrying a
present-but-null quantity, the compiled graph run never raises, whatever the
invocation oracles return. -/
theorem runGraph_isOk (o : RunOracle) (s0 : RFPState)
    (hp : o.parserAcq = Except.ok ()) (ha : o.analyzerAcq = Except.ok ())
    (hsa : o.sessionAcq = Except.ok ()) (hsc : o.scorerAcq = Except.ok ())
    (hr : o.responseAcq = Except.ok ())
    (hq : ∀ pa, o.analyzerCall = Except.ok pa → ∀ raw ∈ pa.requirements,
      ((raw.specifications).getD {}).quantity ≠ some none) :
    (runGraph o s0).isOk = true := by
  obtain ⟨pu, hpu⟩ := except_isOk_exists (parser_agent_isOk o.parserCall)
  unfold runGraph
  rw [hp, hpu]
  simp only []
  by_cases h1 : should_continue_after_parsing (applyParser s0 pu) = "end"
  · rw [if_pos h1]
    rfl
  · rw [if_neg h1]
    obtain ⟨au, hau⟩ := except_isOk_exists
      (analyzer_agent_isOk o.analyzerCall (applyParser s0 pu).sections)
    have hreqs : ∀ r ∈ au.requirements, r.specifications.quantity ≠ some none :=
      analyzer_requirements_quantity o.analyzerCall (applyParser s0 pu).sections
        au hau hq
    rw [ha, hau]
    simp only []
    by_cases h2 : should_continue_after_analyzer
        (applyAnalyzer (applyParser s0 pu) au) = "matcher"
    · rw [if_pos h2]
      obtain ⟨mu, hmu⟩ := except_isOk_exists (matcher_agent_isOk o.reqOracle
        (applyAnalyzer (applyParser s0 pu) au).requirements)
      rw [hsa, hmu]
      simp only []
      obtain ⟨su, hsu⟩ := except_isOk_exists (scorer_agent_isOk o.scorerCall _)
      rw [hsc, hsu]
      simp only []
      obtain ⟨ru, hru⟩ := except_isOk_exists
        (response_agent_isOk o.responseCall
          (applyScorer (applyMatcher (applyAnalyzer (applyParser s0 pu) au) mu)
            su).requirements
          (applyScorer (applyMatcher (applyAnalyzer (applyParser s0 pu) au) mu)
            su).requirement_matches
          hreqs)
      rw [hr, hru]
      rfl
    · rw [if_neg h2]
      simp only []
      obtain ⟨su, hsu⟩ := except_isOk_exists (scorer_agent_isOk o.scorerCall _)
      rw [hsc, hsu]
      simp only []
      obtain ⟨ru, hru⟩ := except_isOk_exists
        (response_agent_isOk o.responseCall
          (applyScorer (applyAnalyzer (applyParser s0 pu) au) su).requirements
          (applyScorer (applyAnalyzer (applyParser s0 pu) au) su).requirement_matches
          hreqs)
      rw [hr, hru]
      rfl

/-! ## Claim C1 -/

/-- C1 counterexample: two code paths raise past a stage boundary.  First,
each stage acquires its LLM handle / DB session outside its try block
(get_parser_llm() at parser_agent.py line 60, and likewise in the other
agents), and get_llm raises ValueError when GOOGLE_API_KEY is unset, so the
run aborts instead of logging an errors entry.  Second, even with every
acquisition succeeding, the response stage's line-item loop
(response_agent.py lines 66-91) runs before its try block (line 112): an
extracted requirement whose specifications carry a present-but-null quantity
makes line 75's plain dict default miss and line 77's
quantity * unit_price raise TypeError, aborting the run.  In both cases the
pipeline never reaches its terminal stage. -/
theorem pipeline_raises_on_acquisition_failure :
    run_rfp_analysis oracleNoKey "rfp-001" "Some tender text" =
      Except.error "GOOGLE_API_KEY not found in environment variables" ∧
    run_rfp_analysis oracleNullQuantity "rfp-001" "Some tender text" =
      Except.error
        "TypeError: unsupported operand type(s) for *: 'NoneType' and 'float'" :=
  ⟨rfl, rfl⟩

/-- C1 as amended: failures of the calls inside the stages' try blocks (LLM
invocation, fence stripping, JSON parsing, catalog queries, mid-loop faults,
all of which the oracle's parserCall/analyzerCall/reqOracle/scorerCall/
responseCall fields range over) never escape a stage: each is converted into
an error entry plus default outputs.  The exceptions live outside the try
blocks: handle/session acquisition in every stage, and the response stage's
line-item loop on a present-but-null quantity.  When every acquisition
succeeds and no extracted requirement carries a null quantity, the run always
returns a result instead of raising. -/
theorem pipeline_total_when_acquisitions_ok (o : RunOracle) (rid rt : String)
    (hp : o.parserAcq = Except.ok ()) (ha : o.analyzerAcq = Except.ok ())
    (hsa : o.sessionAcq = Except.ok ()) (hsc : o.scorerAcq = Except.ok ())
    (hr : o.responseAcq = Except.ok ())
    (hq : ∀ pa, o.analyzerCall = Except.ok pa → ∀ raw ∈ pa.requirements,
      ((raw.specifications).getD {}).quantity ≠ some none) :
    (run_rfp_analysis o rid rt).isOk = true := by
  obtain ⟨s, hsg⟩ := except_isOk_exists
    (runGraph_isOk o (initialState rid rt) hp ha hsa hsc hr hq)
  unfold run_rfp_analysis
  rw [hsg]
  rfl

/-- Witness for C1's amended theorem: a run in which every acquisition
succeeds, every LLM invocation fails (exercising every deterministic
fallback), and the one extracted requirement has a concrete non-null
quantity. -/
theorem pipeline_total_when_acquisitions_ok_witness :
    (run_rfp_analysis oracleHappy "rfp-001" "Some tender text").isOk = true :=
  pipeline_total_when_acquisitions_ok oracleHappy "rfp-001" "Some tender text"
    rfl rfl rfl rfl rfl
    (by
      intro pa hpa raw hraw
      have hpa2 : (Except.ok parsedAnalysisHappy : Except String ParsedAnalysis) =
          Except.ok pa := hpa
      injection hpa2 with hpa3
      subst hpa3
      simp only [parsedAnalysisHappy, List.mem_singleton] at hraw
      subst hraw
      decide)

/-! ## Claim C7 -/

/-- C7 counterexample: a zero-section run caused by a parser failure does
terminate immediately with empty requirements, but its status is
"completed_with_errors", not the claimed "completed" — `run_rfp_analysis`
derives the status solely from whether the error log is empty. -/
theorem routing_zero_sections_status_counterexample :
    ((run_rfp_analysis oracleParserFail "rfp-001" "Some tender text").map
      (fun r => (r.status, r.sections_found, r.requirements_extracted))) =
      Except.ok ("completed_with_errors", 0, 0) ∧
    "completed_with_errors" ≠ "completed" :=
  ⟨rfl, by decide⟩

/-- C7 as amended: after the parsing stage, a run with zero sections
terminates immediately (the run result is exactly the post-parser state) with
empty requirements, reporting status "completed" precisely when the error log
is empty and "completed_with_errors" otherwise; after requirement extraction,
a run with zero requirements skips the matching stage and goes directly to
scoring (the run equals the parser–analyzer–scorer–response composition, the
scorer receiving an empty `requirement_matches`); with requirements present,
the matcher → scorer → response transitions are unconditional. -/
theorem routing_rules_amended (o : RunOracle) (rid rt : String)
    (pu : ParserUpdate)
    (hp : o.parserAcq = Except.ok ())
    (hpu : parser_agent o.parserAcq o.parserCall = Except.ok pu) :
    (pu.sections = [] →
      runGraph o (initialState rid rt) =
        Except.ok (applyParser (initialState rid rt) pu) ∧
      (applyParser (initialState rid rt) pu).requirements = [] ∧
      (applyParser (initialState rid rt) pu).current_agent = "parser" ∧
      ((run_rfp_analysis o rid rt).map (fun r => r.status)) =
        Except.ok (if (applyParser (initialState rid rt) pu).errors.isEmpty
          then "completed" else "completed_with_errors") ∧
      ((run_rfp_analysis o rid rt).map (fun r => r.requirements_extracted)) =
        Except.ok 0) ∧
    (∀ au : AnalyzerUpdate,
      analyzer_agent o.analyzerAcq o.analyzerCall pu.sections = Except.ok au →
      pu.sections ≠ [] →
      (au.requirements = [] →
        runGraph o (initialState rid rt) =
          (match scorer_agent o.scorerAcq o.scorerCall
              (applyAnalyzer (applyParser (initialState rid rt) pu)
                au).requirement_matches with
           | Except.error e => Except.error e
           | Except.ok su =>
             match response_agent o.responseAcq o.responseCall
                 (applyScorer (applyAnalyzer (applyParser (initialState rid rt) pu)
                   au) su).requirements
                 (applyScorer (applyAnalyzer (applyParser (initialState rid rt) pu)
                   au) su).requirement_matches with
             | Except.error e => Except.error e
             | Except.ok ru =>
               Except.ok (applyResponse
                 (applyScorer (applyAnalyzer (applyParser (initialState rid rt) pu)
                   au) su) ru)) ∧
        (applyAnalyzer (applyParser (initialState rid rt) pu)
          au).requirement_matches = []) ∧
      (au.requirements ≠ [] →
        runGraph o (initialState rid rt) =
          (match matcher_agent o.sessionAcq o.reqOracle
              (applyAnalyzer (applyParser (initialState rid rt) pu)
                au).requirements with
           | Except.error e => Except.error e
           | Except.ok mu =>
             match scorer_agent o.scorerAcq o.scorerCall
                 (applyMatcher (applyAnalyzer (applyParser (initialState rid rt) pu)
                   au) mu).requirement_matches with
             | Except.error e => Except.error e
             | Except.ok su =>
               match response_agent o.responseAcq o.responseCall
                   (applyScorer (applyMatcher
                     (applyAnalyzer (applyParser (initialState rid rt) pu) au)
                     mu) su).requirements
                   (applyScorer (applyMatcher
                     (applyAnalyzer (applyParser (initialState rid rt) pu) au)
                     mu) su).requirement_matches with
               | Except.error e => Except.error e
               | Except.ok ru =>
                 Except.ok (applyResponse (applyScorer (applyMatcher
                   (applyAnalyzer (applyParser (initialState rid rt) pu) au)
                   mu) su) ru)))) := by
  constructor
  · intro hsec
    have h1 : should_continue_after_parsing (applyParser (initialState rid rt) pu) =
        "end" := by
      simp [should_continue_after_parsing, applyParser, hsec]
    have hg : runGraph o (initialState rid rt) =
        Except.ok (applyParser (initialState rid rt) pu) := by
      unfold runGraph
      rw [hpu]
      simp only []
      rw [if_pos h1]
    refine ⟨hg, rfl, ?_, ?_, ?_⟩
    · rcases hc : o.parserCall with e | secs
      · rw [hp, hc] at hpu
        injection hpu with h'
        rw [← h']
        rfl
      · rw [hp, hc] at hpu
        injection hpu with h'
        rw [← h']
        rfl
    · unfold run_rfp_analysis
      rw [hg]
      rfl
    · unfold run_rfp_analysis
      rw [hg]
      rfl
  · intro au hau hsec
    have hau' : analyzer_agent o.analyzerAcq o.analyzerCall
        (applyParser (initialState rid rt) pu).sections = Except.ok au := hau
    have h1 : should_continue_after_parsing (applyParser (initialState rid rt) pu) ≠
        "end" := by
      have hlen := List.length_pos.mpr hsec
      simp [should_continue_after_parsing, applyParser, hlen]
    constructor
    · intro hreq
      have h2 : should_continue_after_analyzer
          (applyAnalyzer (applyParser (initialState rid rt) pu) au) ≠ "matcher" := by
        simp [should_continue_after_analyzer, applyAnalyzer, hreq]
      refine ⟨?_, rfl⟩
      unfold runGraph
      rw [hpu]
      simp only []
      rw [if_neg h1, hau']
      simp only []
      rw [if_neg h2]
    · intro hreq
      have h2 : should_continue_after_analyzer
          (applyAnalyzer (applyParser (initialState rid rt) pu) au) = "matcher" := by
        have hlen := List.length_pos.mpr hreq
        simp [should_continue_after_analyzer, applyAnalyzer, hlen]
      unfold runGraph
      rw [hpu]
      simp only []
      rw [if_neg h1, hau']
      simp only []
      rw [if_pos h2]
      rcases hm : matcher_agent o.sessionAcq o.reqOracle
          (applyAnalyzer (applyParser (initialState rid rt) pu) au).requirements
        with e | mu
      · rfl
      · rfl

/-- Witness for C7's amended theorem: a run whose parser succeeds with zero
sections (error log empty, so this instance reports "completed"). -/
theorem routing_rules_amended_witness :
    (parserUpdateZero.sections = [] →
      runGraph oracleZeroSections (initialState "rfp-001" "Some tender text") =
        Except.ok (applyParser (initialState "rfp-001" "Some tender text")
          parserUpdateZero) ∧
      (applyParser (initialState "rfp-001" "Some tender text")
        parserUpdateZero).requirements = [] ∧
      (applyParser (initialState "rfp-001" "Some tender text")
        parserUpdateZero).current_agent = "parser" ∧
      ((run_rfp_analysis oracleZeroSections "rfp-001" "Some tender text").map
          (fun r => r.status)) =
        Except.ok (if (applyParser (initialState "rfp-001" "Some tender text")
            parserUpdateZero).errors.isEmpty
          then "completed" else "completed_with_errors") ∧
      ((run_rfp_analysis oracleZeroSections "rfp-001" "Some tender text").map
          (fun r => r.requirements_extracted)) = Except.ok 0) ∧
    (∀ au : AnalyzerUpdate,
      analyzer_agent oracleZeroSections.analyzerAcq oracleZeroSections.analyzerCall
          parserUpdateZero.sections = Except.ok au →
      parserUpdateZero.sections ≠ [] →
      (au.requirements = [] →
        runGraph oracleZeroSections (initialState "rfp-001" "Some tender text") =
          (match scorer_agent oracleZeroSections.scorerAcq
              oracleZeroSections.scorerCall
              (applyAnalyzer (applyParser (initialState "rfp-001" "Some tender text")
                parserUpdateZero) au).requirement_matches with
           | Except.error e => Except.error e
           | Except.ok su =>
             match response_agent oracleZeroSections.responseAcq
                 oracleZeroSections.responseCall
                 (applyScorer (applyAnalyzer
                   (applyParser (initialState "rfp-001" "Some tender text")
                     parserUpdateZero) au) su).requirements
                 (applyScorer (applyAnalyzer
                   (applyParser (initialState "rfp-001" "Some tender text")
                     parserUpdateZero) au) su).requirement_matches with
             | Except.error e => Except.error e
             | Except.ok ru =>
               Except.ok (applyResponse
                 (applyScorer (applyAnalyzer
                   (applyParser (initialState "rfp-001" "Some tender text")
                     parserUpdateZero) au) su) ru)) ∧
        (applyAnalyzer (applyParser (initialState "rfp-001" "Some tender text")
          parserUpdateZero) au).requirement_matches = []) ∧
      (au.requirements ≠ [] →
        runGraph oracleZeroSections (initialState "rfp-001" "Some tender text") =
          (match matcher_agent oracleZeroSections.sessionAcq
              oracleZeroSections.reqOracle
              (applyAnalyzer (applyParser (initialState "rfp-001" "Some tender text")
                parserUpdateZero) au).requirements with
           | Except.error e => Except.error e
           | Except.ok mu =>
             match scorer_agent oracleZeroSections.scorerAcq
                 oracleZeroSections.scorerCall
                 (applyMatcher (applyAnalyzer
                   (applyParser (initialState "rfp-001" "Some tender text")
                     parserUpdateZero) au) mu).requirement_matches with
             | Except.error e => Except.error e
             | Except.ok su =>
               match response_agent oracleZeroSections.responseAcq
                   oracleZeroSections.responseCall
                   (applyScorer (applyMatcher (applyAnalyzer
                     (applyParser (initialState "rfp-001" "Some tender text")
                       parserUpdateZero) au) mu) su).requirements
                   (applyScorer (applyMatcher (applyAnalyzer
                     (applyParser (initialState "rfp-001" "Some tender text")
                       parserUpdateZero) au) mu) su).requirement_matches with
               | Except.error e => Except.error e
               | Except.ok ru =>
                 Except.ok (applyResponse (applyScorer (applyMatcher (applyAnalyzer
                   (applyParser (initialState "rfp-001" "Some tender text")
                     parserUpdateZero) au) mu) su) ru)))) :=
  routing_rules_amended oracleZeroSections "rfp-001" "Some tender text"
    parserUpdateZero rfl rfl

end B2B
